import Mathlib

/-!
# USB descriptors of the Caterina bootloader (`Descriptors.c`)

A shallow embedding of the descriptor tables, of the signature-row reader and of
`CALLBACK_USB_GetDescriptor`, followed by the properties proved about them.

Machine integers are natural numbers; every store into a `uint8_t` or `uint16_t`
object is followed by an explicit reduction modulo `2^8` or `2^16`.
-/

namespace Caterina

/-! ## Machine integers -/

/-- Conversion to `uint8_t`. -/
def u8 (n : Nat) : Nat := n % 2 ^ 8

/-- Conversion to `uint16_t`. -/
def u16 (n : Nat) : Nat := n % 2 ^ 16

/-- The bytes of a value stored little-endian in a field that is `w` bytes wide. -/
def le : Nat → Nat → List Nat
  | 0, _ => []
  | w + 1, v => v % 256 :: le w (v / 256)

/-! ## Constants of the headers included through `Descriptors.h`

`Descriptors.c` uses these names without defining them. The numeric codes are the ones
fixed by the USB 2.0 and CDC specifications for the corresponding names. -/

/-- Modelled from the spec: descriptor kind `Device` of a selector (USB descriptor type code 1);
the enumeration that declares it is not part of `Descriptors.c`. -/
def DTYPE_Device : Nat := 0x01
/-- Modelled from the spec: descriptor kind `Configuration` of a selector (USB descriptor type
code 2); the enumeration that declares it is not part of `Descriptors.c`. -/
def DTYPE_Configuration : Nat := 0x02
/-- Modelled from the spec: descriptor kind `String` of a selector (USB descriptor type code 3);
the enumeration that declares it is not part of `Descriptors.c`. -/
def DTYPE_String : Nat := 0x03
/-- Modelled from the spec: kind tag of an interface record (USB descriptor type code 4). -/
def DTYPE_Interface : Nat := 0x04
/-- Modelled from the spec: kind tag of an endpoint record (USB descriptor type code 5). -/
def DTYPE_Endpoint : Nat := 0x05
/-- Modelled from the spec: kind tag of a class-specific functional record (CDC code 0x24). -/
def DTYPE_CSInterface : Nat := 0x24

/-- Modelled from the spec: the "no descriptor" sentinel, which section 4.3 gives as `0xFFFF`.
The defining header is not part of `Descriptors.c`; the file uses the name both as the
initial value of the returned length and as the value of unused string-index fields. -/
def NO_DESCRIPTOR : Nat := 0xFFFF

/-- Modelled from the spec: binary-coded decimal version, one decimal digit per nibble
(`VERSION_BCD(01.10)` is `VERSION_BCD 0 1 1 0`). -/
def VERSION_BCD (tens ones tenths hundredths : Nat) : Nat :=
  (((tens <<< 4) ||| ones) <<< 8) ||| ((tenths <<< 4) ||| hundredths)

def CDC_CSCP_CDCClass : Nat := 0x02
def CDC_CSCP_NoSpecificSubclass : Nat := 0x00
def CDC_CSCP_ACMSubclass : Nat := 0x02
def CDC_CSCP_NoSpecificProtocol : Nat := 0x00
def CDC_CSCP_ATCommandProtocol : Nat := 0x01
def CDC_CSCP_CDCDataClass : Nat := 0x0A
def CDC_CSCP_NoDataSubclass : Nat := 0x00
def CDC_CSCP_NoDataProtocol : Nat := 0x00

def USB_CONFIG_ATTR_BUSPOWERED : Nat := 0x80
/-- Modelled from the spec: maximum power draw is stored in units of 2 mA. -/
def USB_CONFIG_POWER_MA (mA : Nat) : Nat := mA >>> 1

/-- Modelled from the spec: direction bit of an endpoint address, device-to-host. -/
def ENDPOINT_DIR_IN : Nat := 0x80
/-- Modelled from the spec: direction bit of an endpoint address, host-to-device. -/
def ENDPOINT_DIR_OUT : Nat := 0x00
def EP_TYPE_BULK : Nat := 0x02
def EP_TYPE_INTERRUPT : Nat := 0x03
def ENDPOINT_ATTR_NO_SYNC : Nat := 0 <<< 2
def ENDPOINT_USAGE_DATA : Nat := 0 <<< 4
def LANGUAGE_ID_ENG : Nat := 0x0409

/-- Bit number of `SPMEN` in `SPMCSR` (ATmega32U4 register definitions). -/
def SPMEN : Nat := 0
/-- Bit number of `SIGRD` in `SPMCSR` (ATmega32U4 register definitions). -/
def SIGRD : Nat := 5
/-- The macro `_BV(bit)`. -/
def _BV (bit : Nat) : Nat := 1 <<< bit

/-- Build-time configuration: the macros that `Descriptors.h` and the Makefile supply. -/
structure Build where
  DEVICE_VID : Nat
  DEVICE_PID : Nat
  FIXED_CONTROL_ENDPOINT_SIZE : Nat
  FIXED_NUM_CONFIGURATIONS : Nat
  CDC_NOTIFICATION_EPNUM : Nat
  CDC_TX_EPNUM : Nat
  CDC_RX_EPNUM : Nat
  CDC_NOTIFICATION_EPSIZE : Nat
  CDC_TXRX_EPSIZE : Nat

/-- The configuration of the Prusa MMU2 bootloader build. -/
def prusaBuild : Build :=
  { DEVICE_VID := 0x2c99, DEVICE_PID := 0x0003,
    FIXED_CONTROL_ENDPOINT_SIZE := 8, FIXED_NUM_CONFIGURATIONS := 1,
    CDC_NOTIFICATION_EPNUM := 2, CDC_TX_EPNUM := 3, CDC_RX_EPNUM := 4,
    CDC_NOTIFICATION_EPSIZE := 8, CDC_TXRX_EPSIZE := 16 }

/-- The same build with the Arduino Leonardo identity. -/
def leonardoBuild : Build :=
  { prusaBuild with DEVICE_VID := 0x2341, DEVICE_PID := 0x0036 }

/-! ## Record types

The record types are declared in headers that `Descriptors.c` includes and that are not part
of it. Their members are the ones the initialisers of `Descriptors.c` name; the member widths
are those of the packed USB 2.0 and CDC descriptor layouts (one byte, or two for the 16-bit
fields listed under `sizeof` and in the serialised forms below). -/

/-- Modelled from the spec: the descriptor header of section 3, an 8-bit byte count of the
whole record followed by the kind tag. -/
structure USB_Descriptor_Header_t where
  Size : Nat
  Type_ : Nat
deriving DecidableEq, Repr

/-- Modelled from the spec: the Device descriptor of section 3 (the type declaration is not
part of `Descriptors.c`). -/
structure USB_Descriptor_Device_t where
  Header : USB_Descriptor_Header_t
  USBSpecification : Nat
  Class : Nat
  SubClass : Nat
  Protocol : Nat
  Endpoint0Size : Nat
  VendorID : Nat
  ProductID : Nat
  ReleaseNumber : Nat
  ManufacturerStrIndex : Nat
  ProductStrIndex : Nat
  SerialNumStrIndex : Nat
  NumberOfConfigurations : Nat
deriving DecidableEq, Repr

/-- Modelled from the spec: the configuration header of section 3 (the type declaration is not
part of `Descriptors.c`). -/
structure USB_Descriptor_Configuration_Header_t where
  Header : USB_Descriptor_Header_t
  TotalConfigurationSize : Nat
  TotalInterfaces : Nat
  ConfigurationNumber : Nat
  ConfigurationStrIndex : Nat
  ConfigAttributes : Nat
  MaxPowerConsumption : Nat
deriving DecidableEq, Repr

/-- Modelled from the spec: an interface record of section 3 (the type declaration is not
part of `Descriptors.c`). -/
structure USB_Descriptor_Interface_t where
  Header : USB_Descriptor_Header_t
  InterfaceNumber : Nat
  AlternateSetting : Nat
  TotalEndpoints : Nat
  Class : Nat
  SubClass : Nat
  Protocol : Nat
  InterfaceStrIndex : Nat
deriving DecidableEq, Repr

/-- Modelled from the spec: the class-specific functional Header record of section 3 (the
type declaration is not part of `Descriptors.c`). -/
structure USB_CDC_Descriptor_FunctionalHeader_t where
  Header : USB_Descriptor_Header_t
  Subtype : Nat
  CDCSpecification : Nat
deriving DecidableEq, Repr

/-- Modelled from the spec: the Abstract-Control-Management record of section 3 (the type
declaration is not part of `Descriptors.c`). -/
structure USB_CDC_Descriptor_FunctionalACM_t where
  Header : USB_Descriptor_Header_t
  Subtype : Nat
  Capabilities : Nat
deriving DecidableEq, Repr

/-- Modelled from the spec: the Union record of section 3 (the type declaration is not part
of `Descriptors.c`). -/
structure USB_CDC_Descriptor_FunctionalUnion_t where
  Header : USB_Descriptor_Header_t
  Subtype : Nat
  MasterInterfaceNumber : Nat
  SlaveInterfaceNumber : Nat
deriving DecidableEq, Repr

/-- Modelled from the spec: an endpoint record of section 3 (the type declaration is not part
of `Descriptors.c`). -/
structure USB_Descriptor_Endpoint_t where
  Header : USB_Descriptor_Header_t
  EndpointAddress : Nat
  Attributes : Nat
  EndpointSize : Nat
  PollingIntervalMS : Nat
deriving DecidableEq, Repr

/-- Modelled from the spec: the Configuration aggregate of section 3, declared in
`Descriptors.h`; the members and their order are those of the initialiser in
`Descriptors.c`, which is the fixed serialisation order the specification lists. -/
structure USB_Descriptor_Configuration_t where
  Config : USB_Descriptor_Configuration_Header_t
  CDC_CCI_Interface : USB_Descriptor_Interface_t
  CDC_Functional_Header : USB_CDC_Descriptor_FunctionalHeader_t
  CDC_Functional_ACM : USB_CDC_Descriptor_FunctionalACM_t
  CDC_Functional_Union : USB_CDC_Descriptor_FunctionalUnion_t
  CDC_NotificationEndpoint : USB_Descriptor_Endpoint_t
  CDC_DCI_Interface : USB_Descriptor_Interface_t
  CDC_DataOutEndpoint : USB_Descriptor_Endpoint_t
  CDC_DataInEndpoint : USB_Descriptor_Endpoint_t
deriving DecidableEq, Repr

/-- Modelled from the spec: a string descriptor of section 3, a header followed by a sequence
of 16-bit code units (the type declaration is not part of `Descriptors.c`). -/
structure USB_Descriptor_String_t where
  Header : USB_Descriptor_Header_t
  UnicodeString : List Nat
deriving DecidableEq, Repr

/-! ### `sizeof` of the packed record types: the sum of the member sizes -/

/-- Modelled from the spec: `sizeof` of the header type, two one-byte members. Each `sizeof`
below is the sum of the member sizes of the packed type, in member order. -/
def sizeof_USB_Descriptor_Header_t : Nat := 1 + 1
/-- Modelled from the spec: `sizeof(USB_Descriptor_Device_t)`; the 16-bit members are
`USBSpecification`, `VendorID`, `ProductID` and `ReleaseNumber`. -/
def sizeof_USB_Descriptor_Device_t : Nat :=
  sizeof_USB_Descriptor_Header_t + 2 + 1 + 1 + 1 + 1 + 2 + 2 + 2 + 1 + 1 + 1 + 1
/-- Modelled from the spec: `sizeof(USB_Descriptor_Configuration_Header_t)`; the 16-bit member
is `TotalConfigurationSize`. -/
def sizeof_USB_Descriptor_Configuration_Header_t : Nat :=
  sizeof_USB_Descriptor_Header_t + 2 + 1 + 1 + 1 + 1 + 1
/-- Modelled from the spec: `sizeof(USB_Descriptor_Interface_t)`. -/
def sizeof_USB_Descriptor_Interface_t : Nat :=
  sizeof_USB_Descriptor_Header_t + 1 + 1 + 1 + 1 + 1 + 1 + 1
/-- Modelled from the spec: `sizeof(USB_CDC_Descriptor_FunctionalHeader_t)`; the 16-bit member
is `CDCSpecification`. -/
def sizeof_USB_CDC_Descriptor_FunctionalHeader_t : Nat :=
  sizeof_USB_Descriptor_Header_t + 1 + 2
/-- Modelled from the spec: `sizeof(USB_CDC_Descriptor_FunctionalACM_t)`. -/
def sizeof_USB_CDC_Descriptor_FunctionalACM_t : Nat :=
  sizeof_USB_Descriptor_Header_t + 1 + 1
/-- Modelled from the spec: `sizeof(USB_CDC_Descriptor_FunctionalUnion_t)`. -/
def sizeof_USB_CDC_Descriptor_FunctionalUnion_t : Nat :=
  sizeof_USB_Descriptor_Header_t + 1 + 1 + 1
/-- Modelled from the spec: `sizeof(USB_Descriptor_Endpoint_t)`; the 16-bit member is
`EndpointSize`. -/
def sizeof_USB_Descriptor_Endpoint_t : Nat :=
  sizeof_USB_Descriptor_Header_t + 1 + 1 + 2 + 1
/-- Modelled from the spec: `sizeof(USB_Descriptor_Configuration_t)`, the nine nested records
in order. -/
def sizeof_USB_Descriptor_Configuration_t : Nat :=
  sizeof_USB_Descriptor_Configuration_Header_t + sizeof_USB_Descriptor_Interface_t
    + sizeof_USB_CDC_Descriptor_FunctionalHeader_t + sizeof_USB_CDC_Descriptor_FunctionalACM_t
    + sizeof_USB_CDC_Descriptor_FunctionalUnion_t + sizeof_USB_Descriptor_Endpoint_t
    + sizeof_USB_Descriptor_Interface_t + sizeof_USB_Descriptor_Endpoint_t
    + sizeof_USB_Descriptor_Endpoint_t

/-- Modelled from the spec: the macro `USB_STRING_LEN(n)`, the header plus `n` 16-bit code
units (the macro is defined outside `Descriptors.c`). -/
def USB_STRING_LEN (UnicodeChars : Nat) : Nat :=
  sizeof_USB_Descriptor_Header_t + (UnicodeChars <<< 1)

/-- A wide string literal `L"..."` as the code units of its text (the terminating null of
the C object is not part of the descriptor text). -/
def L (s : String) : List Nat := s.toList.map Char.toNat

/-! ## The descriptor catalog -/

def DeviceDescriptor (b : Build) : USB_Descriptor_Device_t :=
  { Header := { Size := u8 sizeof_USB_Descriptor_Device_t, Type_ := u8 DTYPE_Device },
    USBSpecification := u16 (VERSION_BCD 0 1 1 0),
    Class := u8 CDC_CSCP_CDCClass,
    SubClass := u8 CDC_CSCP_NoSpecificSubclass,
    Protocol := u8 CDC_CSCP_NoSpecificProtocol,
    Endpoint0Size := u8 b.FIXED_CONTROL_ENDPOINT_SIZE,
    VendorID := u16 b.DEVICE_VID,
    ProductID := u16 b.DEVICE_PID,
    ReleaseNumber := u16 (VERSION_BCD 0 0 0 1),
    ManufacturerStrIndex := 0x02,
    ProductStrIndex := 0x01,
    SerialNumStrIndex := 0x03,
    NumberOfConfigurations := u8 b.FIXED_NUM_CONFIGURATIONS }

def ConfigurationDescriptor (b : Build) : USB_Descriptor_Configuration_t :=
  { Config :=
      { Header := { Size := u8 sizeof_USB_Descriptor_Configuration_Header_t,
                    Type_ := u8 DTYPE_Configuration },
        TotalConfigurationSize := u16 sizeof_USB_Descriptor_Configuration_t,
        TotalInterfaces := 2,
        ConfigurationNumber := 1,
        ConfigurationStrIndex := u8 NO_DESCRIPTOR,
        ConfigAttributes := u8 USB_CONFIG_ATTR_BUSPOWERED,
        MaxPowerConsumption := u8 (USB_CONFIG_POWER_MA 100) },
    CDC_CCI_Interface :=
      { Header := { Size := u8 sizeof_USB_Descriptor_Interface_t, Type_ := u8 DTYPE_Interface },
        InterfaceNumber := 0,
        AlternateSetting := 0,
        TotalEndpoints := 1,
        Class := u8 CDC_CSCP_CDCClass,
        SubClass := u8 CDC_CSCP_ACMSubclass,
        Protocol := u8 CDC_CSCP_ATCommandProtocol,
        InterfaceStrIndex := u8 NO_DESCRIPTOR },
    CDC_Functional_Header :=
      { Header := { Size := u8 sizeof_USB_CDC_Descriptor_FunctionalHeader_t,
                    Type_ := u8 DTYPE_CSInterface },
        Subtype := 0x00,
        CDCSpecification := u16 (VERSION_BCD 0 1 1 0) },
    CDC_Functional_ACM :=
      { Header := { Size := u8 sizeof_USB_CDC_Descriptor_FunctionalACM_t,
                    Type_ := u8 DTYPE_CSInterface },
        Subtype := 0x02,
        Capabilities := 0x04 },
    CDC_Functional_Union :=
      { Header := { Size := u8 sizeof_USB_CDC_Descriptor_FunctionalUnion_t,
                    Type_ := u8 DTYPE_CSInterface },
        Subtype := 0x06,
        MasterInterfaceNumber := 0,
        SlaveInterfaceNumber := 1 },
    CDC_NotificationEndpoint :=
      { Header := { Size := u8 sizeof_USB_Descriptor_Endpoint_t, Type_ := u8 DTYPE_Endpoint },
        EndpointAddress := u8 (ENDPOINT_DIR_IN ||| b.CDC_NOTIFICATION_EPNUM),
        Attributes := u8 (EP_TYPE_INTERRUPT ||| ENDPOINT_ATTR_NO_SYNC ||| ENDPOINT_USAGE_DATA),
        EndpointSize := u16 b.CDC_NOTIFICATION_EPSIZE,
        PollingIntervalMS := 0xFF },
    CDC_DCI_Interface :=
      { Header := { Size := u8 sizeof_USB_Descriptor_Interface_t, Type_ := u8 DTYPE_Interface },
        InterfaceNumber := 1,
        AlternateSetting := 0,
        TotalEndpoints := 2,
        Class := u8 CDC_CSCP_CDCDataClass,
        SubClass := u8 CDC_CSCP_NoDataSubclass,
        Protocol := u8 CDC_CSCP_NoDataProtocol,
        InterfaceStrIndex := u8 NO_DESCRIPTOR },
    CDC_DataOutEndpoint :=
      { Header := { Size := u8 sizeof_USB_Descriptor_Endpoint_t, Type_ := u8 DTYPE_Endpoint },
        EndpointAddress := u8 (ENDPOINT_DIR_OUT ||| b.CDC_RX_EPNUM),
        Attributes := u8 (EP_TYPE_BULK ||| ENDPOINT_ATTR_NO_SYNC ||| ENDPOINT_USAGE_DATA),
        EndpointSize := u16 b.CDC_TXRX_EPSIZE,
        PollingIntervalMS := 0x01 },
    CDC_DataInEndpoint :=
      { Header := { Size := u8 sizeof_USB_Descriptor_Endpoint_t, Type_ := u8 DTYPE_Endpoint },
        EndpointAddress := u8 (ENDPOINT_DIR_IN ||| b.CDC_TX_EPNUM),
        Attributes := u8 (EP_TYPE_BULK ||| ENDPOINT_ATTR_NO_SYNC ||| ENDPOINT_USAGE_DATA),
        EndpointSize := u16 b.CDC_TXRX_EPSIZE,
        PollingIntervalMS := 0x01 } }

def LanguageString : USB_Descriptor_String_t :=
  { Header := { Size := u8 (USB_STRING_LEN 1), Type_ := u8 DTYPE_String },
    UnicodeString := [u16 LANGUAGE_ID_ENG] }

/-- The text is selected by the `#if DEVICE_PID == ...` chain; the header is the same in
every branch. -/
def ProductString (b : Build) : USB_Descriptor_String_t :=
  { Header := { Size := u8 (USB_STRING_LEN 61), Type_ := u8 DTYPE_String },
    UnicodeString :=
      if b.DEVICE_PID = 0x0003 then
        L "Original Prusa i3 MK3 Multi Material 2.0 upgrade (bootloader)"
      else if b.DEVICE_PID = 0x0036 then
        L "Arduino Leonardo"
      else if b.DEVICE_PID = 0x0037 then
        L "Arduino Micro   "
      else if b.DEVICE_PID = 0x003C then
        L "Arduino Esplora "
      else
        L "USB IO board    " }

/-- The text is selected by the `#if DEVICE_VID == ...` chain; the header is the same in
every branch. -/
def ManufNameString (b : Build) : USB_Descriptor_String_t :=
  { Header := { Size := u8 (USB_STRING_LEN 28), Type_ := u8 DTYPE_String },
    UnicodeString :=
      if b.DEVICE_VID = 0x2c99 then
        L "Prusa Research (prusa3d.com)"
      else if b.DEVICE_VID = 0x2341 then
        L "Arduino LLC"
      else
        L "Unknown    " }

/-- The constant records that `CALLBACK_USB_GetDescriptor` consults. -/
structure Catalog where
  DeviceDescriptor : USB_Descriptor_Device_t
  ConfigurationDescriptor : USB_Descriptor_Configuration_t
  LanguageString : USB_Descriptor_String_t
  ProductString : USB_Descriptor_String_t
  ManufNameString : USB_Descriptor_String_t

/-- The catalog that `Descriptors.c` defines for a build. -/
def catalog (b : Build) : Catalog :=
  { DeviceDescriptor := DeviceDescriptor b,
    ConfigurationDescriptor := ConfigurationDescriptor b,
    LanguageString := LanguageString,
    ProductString := ProductString b,
    ManufNameString := ManufNameString b }

/-! ## Serialised form of the records -/

def USB_Descriptor_Header_t.bytes (h : USB_Descriptor_Header_t) : List Nat :=
  le 1 h.Size ++ le 1 h.Type_

def USB_Descriptor_Device_t.bytes (d : USB_Descriptor_Device_t) : List Nat :=
  d.Header.bytes ++ le 2 d.USBSpecification ++ le 1 d.Class ++ le 1 d.SubClass
    ++ le 1 d.Protocol ++ le 1 d.Endpoint0Size ++ le 2 d.VendorID ++ le 2 d.ProductID
    ++ le 2 d.ReleaseNumber ++ le 1 d.ManufacturerStrIndex ++ le 1 d.ProductStrIndex
    ++ le 1 d.SerialNumStrIndex ++ le 1 d.NumberOfConfigurations

def USB_Descriptor_Configuration_Header_t.bytes
    (c : USB_Descriptor_Configuration_Header_t) : List Nat :=
  c.Header.bytes ++ le 2 c.TotalConfigurationSize ++ le 1 c.TotalInterfaces
    ++ le 1 c.ConfigurationNumber ++ le 1 c.ConfigurationStrIndex ++ le 1 c.ConfigAttributes
    ++ le 1 c.MaxPowerConsumption

def USB_Descriptor_Interface_t.bytes (i : USB_Descriptor_Interface_t) : List Nat :=
  i.Header.bytes ++ le 1 i.InterfaceNumber ++ le 1 i.AlternateSetting ++ le 1 i.TotalEndpoints
    ++ le 1 i.Class ++ le 1 i.SubClass ++ le 1 i.Protocol ++ le 1 i.InterfaceStrIndex

def USB_CDC_Descriptor_FunctionalHeader_t.bytes
    (f : USB_CDC_Descriptor_FunctionalHeader_t) : List Nat :=
  f.Header.bytes ++ le 1 f.Subtype ++ le 2 f.CDCSpecification

def USB_CDC_Descriptor_FunctionalACM_t.bytes
    (f : USB_CDC_Descriptor_FunctionalACM_t) : List Nat :=
  f.Header.bytes ++ le 1 f.Subtype ++ le 1 f.Capabilities

def USB_CDC_Descriptor_FunctionalUnion_t.bytes
    (f : USB_CDC_Descriptor_FunctionalUnion_t) : List Nat :=
  f.Header.bytes ++ le 1 f.Subtype ++ le 1 f.MasterInterfaceNumber
    ++ le 1 f.SlaveInterfaceNumber

def USB_Descriptor_Endpoint_t.bytes (e : USB_Descriptor_Endpoint_t) : List Nat :=
  e.Header.bytes ++ le 1 e.EndpointAddress ++ le 1 e.Attributes ++ le 2 e.EndpointSize
    ++ le 1 e.PollingIntervalMS

def USB_Descriptor_Configuration_t.bytes (c : USB_Descriptor_Configuration_t) : List Nat :=
  c.Config.bytes ++ c.CDC_CCI_Interface.bytes ++ c.CDC_Functional_Header.bytes
    ++ c.CDC_Functional_ACM.bytes ++ c.CDC_Functional_Union.bytes
    ++ c.CDC_NotificationEndpoint.bytes ++ c.CDC_DCI_Interface.bytes
    ++ c.CDC_DataOutEndpoint.bytes ++ c.CDC_DataInEndpoint.bytes

/-- The `Header.Size` fields of the nine nested records, in serialisation order. -/
def USB_Descriptor_Configuration_t.headerSizes (c : USB_Descriptor_Configuration_t) : List Nat :=
  [c.Config.Header.Size, c.CDC_CCI_Interface.Header.Size, c.CDC_Functional_Header.Header.Size,
   c.CDC_Functional_ACM.Header.Size, c.CDC_Functional_Union.Header.Size,
   c.CDC_NotificationEndpoint.Header.Size, c.CDC_DCI_Interface.Header.Size,
   c.CDC_DataOutEndpoint.Header.Size, c.CDC_DataInEndpoint.Header.Size]

/-- A string descriptor on the wire: the header, then each code unit little-endian. -/
def USB_Descriptor_String_t.bytes (s : USB_Descriptor_String_t) : List Nat :=
  s.Header.bytes ++ (s.UnicodeString.map (le 2)).flatten

/-! ## Run-time state -/

/-- Macro `SN_LENGTH`, the number of signature bytes that make up the serial number. -/
abbrev SN_LENGTH : Nat := 10

/-- The type of the anonymous packed struct of the object `SerialNumberString`. -/
structure SerialNumberString_t where
  Header : USB_Descriptor_Header_t
  UnicodeString : Fin (SN_LENGTH * 2) → Nat

/-- The assignment `s.UnicodeString[i] = v`. -/
def SerialNumberString_t.setUnit (s : SerialNumberString_t) (i v : Nat) : SerialNumberString_t :=
  { s with UnicodeString := fun j => if j.val = i then u16 v else s.UnicodeString j }

/-- The packed byte size of the object `SerialNumberString`. -/
def sizeof_SerialNumberString : Nat := sizeof_USB_Descriptor_Header_t + (SN_LENGTH * 2) * 2

/-- The state the code of `Descriptors.c` reads and writes: the status register, the
signature row and the program memory (both read-only), the object `SerialNumberString`, and
a record of the signature-row addresses read so far (kept for reasoning only; the code never
reads it). -/
structure Machine where
  SREG : Fin 256
  signature : Nat → Nat
  progmem : Nat → Nat
  SerialNumberString : SerialNumberString_t
  sigReads : List Nat

/-- The objects whose address `CALLBACK_USB_GetDescriptor` can hand out. -/
inductive Object where
  | DeviceDescriptor
  | ConfigurationDescriptor
  | LanguageString
  | ProductString
  | ManufNameString
  | SerialNumberString
deriving DecidableEq, Repr

/-- A pointer value: `NULL` or the address of one of the objects. -/
abbrev Address := Option Object

def NULL : Address := none

/-- The expression `&obj`. -/
def addressOf (o : Object) : Address := some o

/-! ## The signature-row reader -/

/-- Macro `DISABLE_INT()`: `in flag, 0x3f` then `cli` (clears bit 7 of `SREG`); yields the
flags read. -/
def DISABLE_INT (m : Machine) : Nat × Machine :=
  (m.SREG.val, { m with SREG := Fin.ofNat (m.SREG.val &&& 0x7F) })

/-- Macro `RESTORE_INT(flag)`: `out 0x3f, flag`. -/
def RESTORE_INT (m : Machine) (flag : Nat) : Machine :=
  { m with SREG := Fin.ofNat flag }

/-- The instruction pair `out SPMCSR, val` then `lpm val, Z` of `READ_SIG_BYTE`: when the
value written has both `SPMEN` and `SIGRD` set, the `lpm` loads the byte of the signature row
that `Z` addresses, otherwise the byte of program memory. -/
def out_SPMCSR_lpm (m : Machine) (val Z : Nat) : Nat × Machine :=
  if val &&& (_BV SPMEN ||| _BV SIGRD) = (_BV SPMEN ||| _BV SIGRD) then
    (u8 (m.signature Z), { m with sigReads := m.sigReads ++ [Z] })
  else
    (u8 (m.progmem Z), m)

/-- Macro `READ_SIG_BYTE(idx)`. The argument is substituted as text, so for the argument
`(0x07*2)+(pos)` the cast applies to `(0x07*2)` and `pos` is added to the byte pointer; the
address is the same 16-bit sum. -/
def READ_SIG_BYTE (m : Machine) (idx : Nat) : Nat × Machine :=
  let val := u8 (_BV SPMEN ||| _BV SIGRD)
  let sigPtr := u16 idx
  let d := DISABLE_INT m
  let stat := u8 d.1
  let r := out_SPMCSR_lpm d.2 val sigPtr
  (r.1, RESTORE_INT r.2 stat)

/-- Macro `Flash_read_sn(pos)`. -/
def Flash_read_sn (m : Machine) (pos : Nat) : Nat × Machine :=
  READ_SIG_BYTE m ((0x07 * 2) + pos)

/-! ## Descriptor lookup -/

/-- One pass through the body of the `for` loop, for the loop counter `i`. -/
def serialStep (m : Machine) (i : Nat) : Machine :=
  let r := Flash_read_sn m (i >>> 1)
  let id := if i &&& 1 ≠ 0 then u8 (r.1 &&& 0x0f) else u8 (r.1 >>> 4)
  let c := id + (if id < 10 then '0'.toNat else 'A'.toNat - 10)
  { r.2 with SerialNumberString := r.2.SerialNumberString.setUnit i c }

/-- The loop `for (; i < SN_LENGTH * 2; ++ i)` entered with counter `i` (a `uint8_t`). -/
def serialLoop (m : Machine) (i : Nat) : Machine :=
  if _h : i < SN_LENGTH * 2 then serialLoop (serialStep m i) (u8 (i + 1)) else m
termination_by SN_LENGTH * 2 - i
decreasing_by
  simp only [u8, SN_LENGTH] at *
  omega

/-- What a call leaves behind: the value returned, the pointer stored through
`DescriptorAddress`, and the state. -/
structure Outcome where
  Size : Nat
  DescriptorAddress : Address
  machine : Machine

set_option linter.unusedVariables false in
/-- The function `CALLBACK_USB_GetDescriptor`, over the constant records `cat`. -/
def CALLBACK_USB_GetDescriptor (cat : Catalog) (m : Machine) (wValue wIndex : Nat) : Outcome :=
  let DescriptorType := u8 (u16 wValue >>> 8)
  let DescriptorNumber := u8 (u16 wValue &&& 0xFF)
  let Address := NULL
  let Size := u16 NO_DESCRIPTOR
  if DescriptorType = DTYPE_Device then
    { Size := u16 sizeof_USB_Descriptor_Device_t,
      DescriptorAddress := addressOf Object.DeviceDescriptor, machine := m }
  else if DescriptorType = DTYPE_Configuration then
    { Size := u16 sizeof_USB_Descriptor_Configuration_t,
      DescriptorAddress := addressOf Object.ConfigurationDescriptor, machine := m }
  else if DescriptorType = DTYPE_String then
    if DescriptorNumber = 0 then
      { Size := u16 cat.LanguageString.Header.Size,
        DescriptorAddress := addressOf Object.LanguageString, machine := m }
    else if DescriptorNumber = cat.DeviceDescriptor.ProductStrIndex then
      { Size := u16 cat.ProductString.Header.Size,
        DescriptorAddress := addressOf Object.ProductString, machine := m }
    else if DescriptorNumber = cat.DeviceDescriptor.ManufacturerStrIndex then
      { Size := u16 cat.ManufNameString.Header.Size,
        DescriptorAddress := addressOf Object.ManufNameString, machine := m }
    else if DescriptorNumber = cat.DeviceDescriptor.SerialNumStrIndex then
      let m1 := { m with SerialNumberString :=
        { m.SerialNumberString with
          Header := { m.SerialNumberString.Header with Size := u8 (USB_STRING_LEN 20) } } }
      let m2 := { m1 with SerialNumberString :=
        { m1.SerialNumberString with
          Header := { m1.SerialNumberString.Header with Type_ := u8 DTYPE_String } } }
      let m3 := serialLoop m2 0
      { Size := u16 m3.SerialNumberString.Header.Size,
        DescriptorAddress := addressOf Object.SerialNumberString, machine := m3 }
    else
      { Size := Size, DescriptorAddress := Address, machine := m }
  else
    { Size := Size, DescriptorAddress := Address, machine := m }

/-! ## The specification side -/

/-- The resolution algorithm of section 4.3 of the specification, on a selector
`(kind, index)`: which record is returned, `NULL` standing for NotFound. -/
def Resolve_spec (dev : USB_Descriptor_Device_t) (kind index : Nat) : Address :=
  if kind = DTYPE_Device then addressOf Object.DeviceDescriptor
  else if kind = DTYPE_Configuration then addressOf Object.ConfigurationDescriptor
  else if kind = DTYPE_String then
    if index = 0 then addressOf Object.LanguageString
    else if index = dev.ProductStrIndex then addressOf Object.ProductString
    else if index = dev.ManufacturerStrIndex then addressOf Object.ManufNameString
    else if index = dev.SerialNumStrIndex then addressOf Object.SerialNumberString
    else NULL
  else NULL

/-- The character that section 4.2 of the specification assigns to a nibble:
`0..9` give `'0'..'9'`, `10..15` give `'A'..'F'`. -/
def hexChar_spec (nibble : Nat) : Nat :=
  match nibble with
  | 0 => '0'.toNat | 1 => '1'.toNat | 2 => '2'.toNat | 3 => '3'.toNat
  | 4 => '4'.toNat | 5 => '5'.toNat | 6 => '6'.toNat | 7 => '7'.toNat
  | 8 => '8'.toNat | 9 => '9'.toNat | 10 => 'A'.toNat | 11 => 'B'.toNat
  | 12 => 'C'.toNat | 13 => 'D'.toNat | 14 => 'E'.toNat | _ => 'F'.toNat

/-- The example signature bytes of section 8 of the specification. -/
def exampleBytes : List Nat := [0x1A, 0x2B, 0x3C, 0x4D, 0x5E, 0x6F, 0x70, 0x81, 0x92, 0xA3]

/-- A state whose signature row holds `exampleBytes` at offsets `0x0E..0x17`, with
interrupts enabled and a cleared serial-number object. -/
def exampleMachine : Machine :=
  { SREG := 0x80,
    signature := fun a => if 0x0E ≤ a then exampleBytes.getD (a - 0x0E) 0xFF else 0xFF,
    progmem := fun _ => 0,
    SerialNumberString := { Header := { Size := 0, Type_ := 0 }, UnicodeString := fun _ => 0 },
    sigReads := [] }

/-- The code units of the object `SerialNumberString`, in index order. -/
def SerialNumberString_t.units (s : SerialNumberString_t) : List Nat :=
  List.ofFn s.UnicodeString

/-- The code unit that pass `i` of the loop stores, as a function of the signature row. -/
def derivedUnit (signature : Nat → Nat) (i : Nat) : Nat :=
  let byte := u8 (signature (u16 ((0x07 * 2) + (i >>> 1))))
  let id := if i &&& 1 ≠ 0 then u8 (byte &&& 0x0f) else u8 (byte >>> 4)
  u16 (id + (if id < 10 then '0'.toNat else 'A'.toNat - 10))

/-- The state in which the loop entered with counter `i` ends, in closed form. -/
def serialLoopResult (m : Machine) (i : Nat) : Machine :=
  { SREG := m.SREG,
    signature := m.signature,
    progmem := m.progmem,
    SerialNumberString :=
      { Header := m.SerialNumberString.Header,
        UnicodeString := fun j =>
          if i ≤ j.val then derivedUnit m.signature j.val else m.SerialNumberString.UnicodeString j },
    sigReads := m.sigReads
      ++ (List.range' i (SN_LENGTH * 2 - i)).map (fun k => u16 ((0x07 * 2) + (k >>> 1))) }

/-- The request value whose high byte is `kind` and whose low byte is `index`. -/
def makeWValue (kind index : Nat) : Nat := kind * 256 + index

/-- The selectors that section 8 of the specification calls valid, for the string indices
stored in the Device descriptor `dev`. -/
def knownSelector (dev : USB_Descriptor_Device_t) (kind index : Nat) : Prop :=
  kind = DTYPE_Device ∨ kind = DTYPE_Configuration ∨
    (kind = DTYPE_String ∧
      (index = 0 ∨ index = dev.ProductStrIndex ∨ index = dev.ManufacturerStrIndex
        ∨ index = dev.SerialNumStrIndex))

instance (dev : USB_Descriptor_Device_t) (kind index : Nat) :
    Decidable (knownSelector dev kind index) := by
  unfold knownSelector
  infer_instance

/-- The outcome hands out the (non-null) address of object `o` with length `size`. -/
def Outcome.returnsRecord (out : Outcome) (o : Object) (size : Nat) : Prop :=
  out.DescriptorAddress = addressOf o ∧ out.DescriptorAddress ≠ NULL ∧ out.Size = size

/-- The request for the Serial Number string on build `b`. -/
def serialRequest (b : Build) : Nat :=
  makeWValue DTYPE_String (DeviceDescriptor b).SerialNumStrIndex

/-- The state after the serial-number branch has run from state `m`, in closed form. -/
def serialDerived (m : Machine) : Machine :=
  { SREG := m.SREG,
    signature := m.signature,
    progmem := m.progmem,
    SerialNumberString :=
      { Header := { Size := 42, Type_ := DTYPE_String },
        UnicodeString := fun j => derivedUnit m.signature j.val },
    sigReads := m.sigReads
      ++ (List.range' 0 (SN_LENGTH * 2)).map (fun k => u16 ((0x07 * 2) + (k >>> 1))) }

/-- The object `SerialNumberString` on the wire: the header, then each of its code units
little-endian. -/
def SerialNumberString_t.bytes (s : SerialNumberString_t) : List Nat :=
  s.Header.bytes ++ (s.units.map (le 2)).flatten

/-- The nibble that position `j` of the derived text renders: the high nibble of signature
byte `j / 2` for even `j`, its low nibble for odd `j` (section 4.2 of the specification). -/
def nibbleAt_spec (signature : Nat → Nat) (j : Nat) : Nat :=
  if j % 2 = 0 then u8 (signature (0x0E + j / 2)) / 16 else u8 (signature (0x0E + j / 2)) % 16

/-- The value of an uppercase hexadecimal character: `'0'..'9'` give `0..9`, `'A'..'F'` give
`10..15`. -/
def hexValue_spec (c : Nat) : Nat :=
  if '0'.toNat ≤ c ∧ c ≤ '9'.toNat then c - '0'.toNat else c - 'A'.toNat + 10

/-- Decoding of a text of hexadecimal pairs into bytes, high nibble first. -/
def decodeHexPairs_spec : List Nat → List Nat
  | hi :: lo :: rest => (16 * hexValue_spec hi + hexValue_spec lo) :: decodeHexPairs_spec rest
  | _ => []

/-- The text section 4.2 of the specification derives from a byte sequence: for each byte
the character of its high nibble, then the character of its low nibble. -/
def encodeHexPairs_spec (bytes : List Nat) : List Nat :=
  bytes.flatMap (fun x => [hexChar_spec (x / 16), hexChar_spec (x % 16)])

/-- The `SN_LENGTH` bytes of the signature row at offsets `0x0E..0x17`. -/
def signatureBytes (signature : Nat → Nat) : List Nat :=
  (List.range SN_LENGTH).map (fun p => u8 (signature (0x0E + p)))

/-! ## Auxiliary facts -/

theorem descriptorType_eq (wValue : Nat) (hw : wValue < 2 ^ 16) :
    u8 (u16 wValue >>> 8) = wValue / 256 := by
  simp only [u8, u16, Nat.shiftRight_eq_div_pow]
  omega

theorem descriptorNumber_eq (wValue : Nat) :
    u8 (u16 wValue &&& 0xFF) = wValue % 256 := by
  have h : (0xFF : Nat) = 2 ^ 8 - 1 := by norm_num
  simp only [u8, u16, h, Nat.and_pow_two_sub_one_eq_mod]
  omega

theorem SREG_restore (r : Fin 256) : (Fin.ofNat (u8 r.val) : Fin 256) = r := by
  apply Fin.ext
  have := r.isLt
  simp only [Fin.ofNat, u8]
  omega

theorem serialStep_eq (m : Machine) (i : Nat) :
    serialStep m i =
      { SREG := m.SREG,
        signature := m.signature,
        progmem := m.progmem,
        SerialNumberString :=
          { Header := m.SerialNumberString.Header,
            UnicodeString := fun j =>
              if j.val = i then derivedUnit m.signature i else m.SerialNumberString.UnicodeString j },
        sigReads := m.sigReads ++ [u16 ((0x07 * 2) + (i >>> 1))] } := by
  have hsel : u8 (_BV SPMEN ||| _BV SIGRD) &&& (_BV SPMEN ||| _BV SIGRD)
      = (_BV SPMEN ||| _BV SIGRD) := by decide
  simp only [serialStep, Flash_read_sn, READ_SIG_BYTE, out_SPMCSR_lpm, hsel, if_true,
    DISABLE_INT, RESTORE_INT, SREG_restore, SerialNumberString_t.setUnit, derivedUnit]

theorem serialLoop_eq (n : Nat) : ∀ (m : Machine) (i : Nat), i + n = SN_LENGTH * 2 →
    serialLoop m i = serialLoopResult m i := by
  induction n with
  | zero =>
    intro m i hi
    rw [serialLoop]
    have h20 : ¬ i < SN_LENGTH * 2 := by omega
    simp only [h20, dite_false, serialLoopResult]
    have hz : SN_LENGTH * 2 - i = 0 := by omega
    cases m with
    | mk sreg sg pm sn rd =>
      cases sn with
      | mk hd us =>
        simp only [hz, List.range'_zero, List.map_nil, List.append_nil, Machine.mk.injEq,
          SerialNumberString_t.mk.injEq, true_and, and_true]
        funext j
        have := j.isLt
        have hj : ¬ i ≤ j.val := by omega
        simp [hj]
  | succ n ih =>
    intro m i hi
    rw [serialLoop]
    have h20 : i < SN_LENGTH * 2 := by omega
    have hu : u8 (i + 1) = i + 1 := by
      simp only [u8, SN_LENGTH] at *
      omega
    simp only [h20, dite_true, hu]
    rw [ih _ (i + 1) (by omega), serialStep_eq]
    have hr : SN_LENGTH * 2 - i = (SN_LENGTH * 2 - (i + 1)) + 1 := by omega
    simp only [serialLoopResult, Machine.mk.injEq, SerialNumberString_t.mk.injEq, true_and]
    refine ⟨?_, ?_⟩
    · funext j
      by_cases h1 : i + 1 ≤ j.val
      · have h2 : i ≤ j.val := by omega
        simp [h1, h2]
      · by_cases h3 : j.val = i
        · simp [h3]
        · have h2 : ¬ i ≤ j.val := by omega
          simp [h1, h2, h3]
    · rw [hr, List.range'_succ, List.map_cons, List.append_assoc]
      rfl

theorem serialBranch_eq (m : Machine) :
    serialLoop
        { SREG := m.SREG, signature := m.signature, progmem := m.progmem,
          SerialNumberString :=
            { Header := { Size := u8 (USB_STRING_LEN 20), Type_ := u8 DTYPE_String },
              UnicodeString := m.SerialNumberString.UnicodeString },
          sigReads := m.sigReads } 0
      = serialDerived m := by
  rw [serialLoop_eq (SN_LENGTH * 2) _ 0 (by simp)]
  simp only [serialLoopResult, serialDerived, Machine.mk.injEq, SerialNumberString_t.mk.injEq,
    Nat.zero_le, if_true, Nat.sub_zero, true_and, and_true]
  decide

theorem lookup_device (cat : Catalog) (m : Machine) (wValue wIndex : Nat)
    (hw : wValue < 2 ^ 16) (h : wValue / 256 = DTYPE_Device) :
    CALLBACK_USB_GetDescriptor cat m wValue wIndex =
      { Size := 18, DescriptorAddress := addressOf Object.DeviceDescriptor, machine := m } := by
  simp only [CALLBACK_USB_GetDescriptor, descriptorType_eq wValue hw, h, if_true]
  rfl

theorem lookup_configuration (cat : Catalog) (m : Machine) (wValue wIndex : Nat)
    (hw : wValue < 2 ^ 16) (h : wValue / 256 = DTYPE_Configuration) :
    CALLBACK_USB_GetDescriptor cat m wValue wIndex =
      { Size := 62, DescriptorAddress := addressOf Object.ConfigurationDescriptor,
        machine := m } := by
  have hne : ¬ DTYPE_Configuration = DTYPE_Device := by decide
  simp only [CALLBACK_USB_GetDescriptor, descriptorType_eq wValue hw, h, hne, if_true, if_false]
  rfl

theorem lookup_string (cat : Catalog) (m : Machine) (wValue wIndex : Nat)
    (hw : wValue < 2 ^ 16) (h : wValue / 256 = DTYPE_String) :
    CALLBACK_USB_GetDescriptor cat m wValue wIndex =
      if wValue % 256 = 0 then
        { Size := u16 cat.LanguageString.Header.Size,
          DescriptorAddress := addressOf Object.LanguageString, machine := m }
      else if wValue % 256 = cat.DeviceDescriptor.ProductStrIndex then
        { Size := u16 cat.ProductString.Header.Size,
          DescriptorAddress := addressOf Object.ProductString, machine := m }
      else if wValue % 256 = cat.DeviceDescriptor.ManufacturerStrIndex then
        { Size := u16 cat.ManufNameString.Header.Size,
          DescriptorAddress := addressOf Object.ManufNameString, machine := m }
      else if wValue % 256 = cat.DeviceDescriptor.SerialNumStrIndex then
        { Size := 42, DescriptorAddress := addressOf Object.SerialNumberString,
          machine := serialDerived m }
      else
        { Size := u16 NO_DESCRIPTOR, DescriptorAddress := NULL, machine := m } := by
  have hne1 : ¬ DTYPE_String = DTYPE_Device := by decide
  have hne2 : ¬ DTYPE_String = DTYPE_Configuration := by decide
  simp only [CALLBACK_USB_GetDescriptor, descriptorType_eq wValue hw, descriptorNumber_eq,
    h, hne1, hne2, if_true, if_false, serialBranch_eq]
  rfl

theorem lookup_other_kind (cat : Catalog) (m : Machine) (wValue wIndex : Nat)
    (hw : wValue < 2 ^ 16) (h1 : wValue / 256 ≠ DTYPE_Device)
    (h2 : wValue / 256 ≠ DTYPE_Configuration) (h3 : wValue / 256 ≠ DTYPE_String) :
    CALLBACK_USB_GetDescriptor cat m wValue wIndex =
      { Size := u16 NO_DESCRIPTOR, DescriptorAddress := NULL, machine := m } := by
  simp only [CALLBACK_USB_GetDescriptor, descriptorType_eq wValue hw, h1, h2, h3, if_false]

theorem serialRequest_outcome (b : Build) (m : Machine) (wIndex : Nat) :
    CALLBACK_USB_GetDescriptor (catalog b) m (serialRequest b) wIndex =
      { Size := 42, DescriptorAddress := addressOf Object.SerialNumberString,
        machine := serialDerived m } := by
  have hreq : serialRequest b = 0x0303 := rfl
  rw [hreq, lookup_string _ _ _ _ (by decide) (by decide)]
  rfl

theorem lookup_not_found (cat : Catalog) (m : Machine) (wValue wIndex : Nat)
    (hw : wValue < 2 ^ 16)
    (hsel : (wValue / 256 ≠ DTYPE_Device ∧ wValue / 256 ≠ DTYPE_Configuration
              ∧ wValue / 256 ≠ DTYPE_String)
            ∨ (wValue / 256 = DTYPE_String ∧ wValue % 256 ≠ 0
              ∧ wValue % 256 ≠ cat.DeviceDescriptor.ProductStrIndex
              ∧ wValue % 256 ≠ cat.DeviceDescriptor.ManufacturerStrIndex
              ∧ wValue % 256 ≠ cat.DeviceDescriptor.SerialNumStrIndex)) :
    CALLBACK_USB_GetDescriptor cat m wValue wIndex =
      { Size := u16 NO_DESCRIPTOR, DescriptorAddress := NULL, machine := m } := by
  rcases hsel with ⟨h1, h2, h3⟩ | ⟨h, h0, h1, h2, h3⟩
  · exact lookup_other_kind cat m wValue wIndex hw h1 h2 h3
  · rw [lookup_string cat m wValue wIndex hw h, if_neg h0, if_neg h1, if_neg h2, if_neg h3]

theorem hexChar_of_nibble (n : Nat) (hn : n < 16) :
    u16 (n + (if n < 10 then '0'.toNat else 'A'.toNat - 10)) = hexChar_spec n := by
  interval_cases n <;> rfl

theorem derivedUnit_even (signature : Nat → Nat) (p : Nat) (hp : p < SN_LENGTH) :
    derivedUnit signature (2 * p) = hexChar_spec (u8 (signature (0x0E + p)) / 16) := by
  have h1 : (2 * p) >>> 1 = p := by
    rw [Nat.shiftRight_eq_div_pow]
    omega
  have h2 : (2 * p) &&& 1 = 0 := by
    rw [Nat.and_one_is_mod]
    omega
  have h3 : u16 (0x07 * 2 + p) = 0x0E + p := by
    simp only [u16, SN_LENGTH] at *
    omega
  have hb : u8 (signature (0x0E + p)) < 256 := by
    simp only [u8]
    omega
  have h4 : u8 (u8 (signature (0x0E + p)) >>> 4) = u8 (signature (0x0E + p)) / 16 := by
    rw [Nat.shiftRight_eq_div_pow]
    simp only [u8] at *
    omega
  simp only [derivedUnit, h1, h2, h3, h4, ne_eq, not_true_eq_false, if_false]
  exact hexChar_of_nibble _ (by omega)

theorem derivedUnit_odd (signature : Nat → Nat) (p : Nat) (hp : p < SN_LENGTH) :
    derivedUnit signature (2 * p + 1) = hexChar_spec (u8 (signature (0x0E + p)) % 16) := by
  have h1 : (2 * p + 1) >>> 1 = p := by
    rw [Nat.shiftRight_eq_div_pow]
    omega
  have h2 : (2 * p + 1) &&& 1 = 1 := by
    rw [Nat.and_one_is_mod]
    omega
  have h3 : u16 (0x07 * 2 + p) = 0x0E + p := by
    simp only [u16, SN_LENGTH] at *
    omega
  have h4 : u8 (u8 (signature (0x0E + p)) &&& 0x0f) = u8 (signature (0x0E + p)) % 16 := by
    have h : (0x0f : Nat) = 2 ^ 4 - 1 := by norm_num
    rw [h, Nat.and_pow_two_sub_one_eq_mod]
    simp only [u8]
    omega
  simp only [derivedUnit, h1, h2, h3, h4, ne_eq, one_ne_zero, not_false_eq_true, if_true]
  exact hexChar_of_nibble _ (by omega)

theorem serialDerived_unit (m : Machine) (i : Nat) (hi : i < SN_LENGTH * 2) :
    (serialDerived m).SerialNumberString.units[i]? = some (derivedUnit m.signature i) := by
  simp only [SerialNumberString_t.units, List.getElem?_ofFn, List.ofFnNthVal, hi, dite_true,
    serialDerived]

theorem lookup_machine_unchanged (cat : Catalog) (m : Machine) (wValue wIndex : Nat)
    (hw : wValue < 2 ^ 16)
    (hsel : ¬ (wValue / 256 = DTYPE_String
                ∧ wValue % 256 = cat.DeviceDescriptor.SerialNumStrIndex)) :
    (CALLBACK_USB_GetDescriptor cat m wValue wIndex).machine = m := by
  by_cases h1 : wValue / 256 = DTYPE_Device
  · rw [lookup_device cat m wValue wIndex hw h1]
  · by_cases h2 : wValue / 256 = DTYPE_Configuration
    · rw [lookup_configuration cat m wValue wIndex hw h2]
    · by_cases h3 : wValue / 256 = DTYPE_String
      · have hs : ¬ wValue % 256 = cat.DeviceDescriptor.SerialNumStrIndex := fun h => hsel ⟨h3, h⟩
        rw [lookup_string cat m wValue wIndex hw h3]
        split_ifs <;> rfl
      · rw [lookup_other_kind cat m wValue wIndex hw h1 h2 h3]

theorem lookup_machine_frame (cat : Catalog) (m : Machine) (wValue wIndex : Nat)
    (hw : wValue < 2 ^ 16) :
    (CALLBACK_USB_GetDescriptor cat m wValue wIndex).machine.SREG = m.SREG
    ∧ (CALLBACK_USB_GetDescriptor cat m wValue wIndex).machine.signature = m.signature
    ∧ (CALLBACK_USB_GetDescriptor cat m wValue wIndex).machine.progmem = m.progmem := by
  by_cases h1 : wValue / 256 = DTYPE_Device
  · rw [lookup_device cat m wValue wIndex hw h1]
    exact ⟨rfl, rfl, rfl⟩
  · by_cases h2 : wValue / 256 = DTYPE_Configuration
    · rw [lookup_configuration cat m wValue wIndex hw h2]
      exact ⟨rfl, rfl, rfl⟩
    · by_cases h3 : wValue / 256 = DTYPE_String
      · rw [lookup_string cat m wValue wIndex hw h3]
        split_ifs <;> exact ⟨rfl, rfl, rfl⟩
      · rw [lookup_other_kind cat m wValue wIndex hw h1 h2 h3]
        exact ⟨rfl, rfl, rfl⟩

theorem derivedUnit_eq_hexChar (signature : Nat → Nat) (j : Nat) (hj : j < SN_LENGTH * 2) :
    derivedUnit signature j = hexChar_spec (nibbleAt_spec signature j) := by
  have hp : j / 2 < SN_LENGTH := by
    simp only [SN_LENGTH] at *
    omega
  by_cases hpar : j % 2 = 0
  · have hj2 : j = 2 * (j / 2) := by omega
    rw [nibbleAt_spec, if_pos hpar]
    conv_lhs => rw [hj2]
    exact derivedUnit_even signature (j / 2) hp
  · have hj2 : j = 2 * (j / 2) + 1 := by omega
    rw [nibbleAt_spec, if_neg hpar]
    conv_lhs => rw [hj2]
    exact derivedUnit_odd signature (j / 2) hp

theorem nibbleAt_spec_lt (signature : Nat → Nat) (j : Nat) : nibbleAt_spec signature j < 16 := by
  have hb : u8 (signature (0x0E + j / 2)) < 256 := by
    simp only [u8]
    omega
  simp only [nibbleAt_spec]
  split_ifs <;> omega

theorem hexValue_hexChar (n : Nat) (hn : n < 16) : hexValue_spec (hexChar_spec n) = n := by
  interval_cases n <;> rfl

theorem decode_encode (bytes : List Nat) (h : ∀ x ∈ bytes, x < 256) :
    decodeHexPairs_spec (encodeHexPairs_spec bytes) = bytes := by
  induction bytes with
  | nil => rfl
  | cons x xs ih =>
    have hx : x < 256 := h x (List.mem_cons_self x xs)
    have hxs : ∀ y ∈ xs, y < 256 := fun y hy => h y (List.mem_cons_of_mem x hy)
    have ih' := ih hxs
    simp only [encodeHexPairs_spec] at ih' ⊢
    simp only [List.flatMap_cons, List.cons_append, List.nil_append, decodeHexPairs_spec, ih',
      hexValue_hexChar (x / 16) (by omega), hexValue_hexChar (x % 16) (by omega)]
    congr 1
    omega

theorem range_double_map (g : Nat → Nat) (n : Nat) :
    (List.range (2 * n)).map g = (List.range n).flatMap (fun p => [g (2 * p), g (2 * p + 1)]) := by
  induction n with
  | zero => rfl
  | succ n ih =>
    have h2 : 2 * (n + 1) = (2 * n + 1) + 1 := by omega
    rw [h2, List.range_succ, List.range_succ, List.range_succ, List.map_append, List.map_append,
      ih, List.flatMap_append]
    simp

theorem serialDerived_units_eq_map (m : Machine) :
    (serialDerived m).SerialNumberString.units
      = (List.range (2 * SN_LENGTH)).map (derivedUnit m.signature) := by
  apply List.ext_getElem?
  intro n
  by_cases hn : n < SN_LENGTH * 2
  · rw [serialDerived_unit m n hn, List.getElem?_map, List.getElem?_range (by omega)]
    rfl
  · rw [List.getElem?_eq_none, List.getElem?_eq_none]
    · simp only [List.length_map, List.length_range]
      omega
    · simp only [SerialNumberString_t.units, List.length_ofFn]
      omega

theorem serialDerived_units_eq_encode (m : Machine) :
    (serialDerived m).SerialNumberString.units
      = encodeHexPairs_spec (signatureBytes m.signature) := by
  rw [serialDerived_units_eq_map, range_double_map, encodeHexPairs_spec, signatureBytes,
    List.flatMap_map]
  simp only [List.flatMap]
  congr 1
  apply List.map_congr_left
  intro p hp
  have hp' : p < SN_LENGTH := List.mem_range.mp hp
  rw [derivedUnit_even _ _ hp', derivedUnit_odd _ _ hp']

theorem signatureBytes_lt (signature : Nat → Nat) : ∀ x ∈ signatureBytes signature, x < 256 := by
  intro x hx
  simp only [signatureBytes, List.mem_map] at hx
  obtain ⟨p, _, rfl⟩ := hx
  simp only [u8]
  omega

theorem signatureBytes_getElem? (signature : Nat → Nat) (p : Nat) (hp : p < SN_LENGTH) :
    (signatureBytes signature)[p]? = some (u8 (signature (0x0E + p))) := by
  simp only [signatureBytes, List.getElem?_map, List.getElem?_range hp, Option.map_some']

/-! ## Properties of the descriptor lookup -/

/-- C1: for every 16-bit `wValue` and every `wIndex`, the address stored through
`DescriptorAddress` is the one the algorithm of the specification selects from the kind
(high byte of `wValue`) and the index (low byte): Device and Configuration by kind alone;
for kind String, index 0 the Language string and the indices stored in the Device descriptor
the Product, Manufacturer and Serial Number strings. -/
theorem C1_lookup_follows_spec_algorithm (b : Build) (m : Machine) (wValue wIndex : Nat)
    (hw : wValue < 2 ^ 16) :
    (CALLBACK_USB_GetDescriptor (catalog b) m wValue wIndex).DescriptorAddress
        = Resolve_spec (DeviceDescriptor b) (wValue / 256) (wValue % 256)
    ∧ (wValue / 256 = DTYPE_Device →
        (CALLBACK_USB_GetDescriptor (catalog b) m wValue wIndex).DescriptorAddress
          = addressOf Object.DeviceDescriptor)
    ∧ (wValue / 256 = DTYPE_Configuration →
        (CALLBACK_USB_GetDescriptor (catalog b) m wValue wIndex).DescriptorAddress
          = addressOf Object.ConfigurationDescriptor)
    ∧ (wValue / 256 = DTYPE_String → wValue % 256 = 0 →
        (CALLBACK_USB_GetDescriptor (catalog b) m wValue wIndex).DescriptorAddress
          = addressOf Object.LanguageString)
    ∧ (wValue / 256 = DTYPE_String → wValue % 256 = (DeviceDescriptor b).ProductStrIndex →
        (CALLBACK_USB_GetDescriptor (catalog b) m wValue wIndex).DescriptorAddress
          = addressOf Object.ProductString)
    ∧ (wValue / 256 = DTYPE_String → wValue % 256 = (DeviceDescriptor b).ManufacturerStrIndex →
        (CALLBACK_USB_GetDescriptor (catalog b) m wValue wIndex).DescriptorAddress
          = addressOf Object.ManufNameString)
    ∧ (wValue / 256 = DTYPE_String → wValue % 256 = (DeviceDescriptor b).SerialNumStrIndex →
        (CALLBACK_USB_GetDescriptor (catalog b) m wValue wIndex).DescriptorAddress
          = addressOf Object.SerialNumberString) := by
  have hT := descriptorType_eq wValue hw
  have hN := descriptorNumber_eq wValue
  simp only [CALLBACK_USB_GetDescriptor, hT, hN, Resolve_spec, catalog, DeviceDescriptor,
    DTYPE_Device, DTYPE_Configuration, DTYPE_String]
  refine ⟨?_, ?_, ?_, ?_, ?_, ?_, ?_⟩
  · split_ifs <;> rfl
  · intro h; simp [h]
  · intro h; simp [h]
  · intro h h0; simp [h, h0]
  · intro h h0; simp [h, h0]
  · intro h h0; simp [h, h0]
  · intro h h0; simp [h, h0]

/-- Instance of C1: the request `0x0302` (kind String, index 2) on the Prusa build. -/
theorem C1_lookup_follows_spec_algorithm_witness :
    (0x0302 : Nat) < 2 ^ 16
    ∧ (CALLBACK_USB_GetDescriptor (catalog prusaBuild) exampleMachine 0x0302 0).DescriptorAddress
        = addressOf Object.ManufNameString :=
  ⟨by decide,
   (C1_lookup_follows_spec_algorithm prusaBuild exampleMachine 0x0302 0 (by decide)).2.2.2.2.2.1
     (by decide) (by decide)⟩

/-- C2, the claim as stated fails: for kind Configuration the length returned is 62, while
the `Header.Size` field of `ConfigurationDescriptor.Config` is 9. -/
theorem C2_configuration_length_is_not_header_size :
    (CALLBACK_USB_GetDescriptor (catalog prusaBuild) exampleMachine
        (makeWValue DTYPE_Configuration 0) 0).Size = 62
    ∧ (ConfigurationDescriptor prusaBuild).Config.Header.Size = 9
    ∧ (CALLBACK_USB_GetDescriptor (catalog prusaBuild) exampleMachine
        (makeWValue DTYPE_Configuration 0) 0).Size
        ≠ (ConfigurationDescriptor prusaBuild).Config.Header.Size := by
  decide

/-- C2 (amended): for every valid selector and every `wIndex` the lookup returns the non-null
address of the selected record, and a length equal to that record's `Header.Size` field,
except for kind Configuration, where the length is the `TotalConfigurationSize` field of
`ConfigurationDescriptor.Config` (the size of the whole aggregate). For the Serial Number
string the field is the one the object holds after the call. -/
theorem C2_valid_selector_address_and_length (b : Build) (m : Machine) (wValue wIndex : Nat)
    (hw : wValue < 2 ^ 16)
    (hsel : knownSelector (DeviceDescriptor b) (wValue / 256) (wValue % 256)) :
    (CALLBACK_USB_GetDescriptor (catalog b) m wValue wIndex).DescriptorAddress ≠ NULL
    ∧ (wValue / 256 = DTYPE_Device →
        (CALLBACK_USB_GetDescriptor (catalog b) m wValue wIndex).returnsRecord
          Object.DeviceDescriptor (DeviceDescriptor b).Header.Size)
    ∧ (wValue / 256 = DTYPE_Configuration →
        (CALLBACK_USB_GetDescriptor (catalog b) m wValue wIndex).returnsRecord
          Object.ConfigurationDescriptor
          (ConfigurationDescriptor b).Config.TotalConfigurationSize)
    ∧ (wValue / 256 = DTYPE_String → wValue % 256 = 0 →
        (CALLBACK_USB_GetDescriptor (catalog b) m wValue wIndex).returnsRecord
          Object.LanguageString LanguageString.Header.Size)
    ∧ (wValue / 256 = DTYPE_String → wValue % 256 = (DeviceDescriptor b).ProductStrIndex →
        (CALLBACK_USB_GetDescriptor (catalog b) m wValue wIndex).returnsRecord
          Object.ProductString (ProductString b).Header.Size)
    ∧ (wValue / 256 = DTYPE_String → wValue % 256 = (DeviceDescriptor b).ManufacturerStrIndex →
        (CALLBACK_USB_GetDescriptor (catalog b) m wValue wIndex).returnsRecord
          Object.ManufNameString (ManufNameString b).Header.Size)
    ∧ (wValue / 256 = DTYPE_String → wValue % 256 = (DeviceDescriptor b).SerialNumStrIndex →
        (CALLBACK_USB_GetDescriptor (catalog b) m wValue wIndex).returnsRecord
          Object.SerialNumberString
          (CALLBACK_USB_GetDescriptor (catalog b) m wValue
            wIndex).machine.SerialNumberString.Header.Size) := by
  have hP : (catalog b).DeviceDescriptor.ProductStrIndex = 1 := rfl
  have hM : (catalog b).DeviceDescriptor.ManufacturerStrIndex = 2 := rfl
  have hS : (catalog b).DeviceDescriptor.SerialNumStrIndex = 3 := rfl
  have hP' : (DeviceDescriptor b).ProductStrIndex = 1 := rfl
  have hM' : (DeviceDescriptor b).ManufacturerStrIndex = 2 := rfl
  have hS' : (DeviceDescriptor b).SerialNumStrIndex = 3 := rfl
  have hnn : ∀ o : Object, addressOf o ≠ NULL := by
    intro o h
    cases h
  refine ⟨?_, ?_, ?_, ?_, ?_, ?_, ?_⟩
  · rcases hsel with h | h | ⟨h, h0⟩
    · rw [lookup_device _ _ _ _ hw h]
      exact hnn _
    · rw [lookup_configuration _ _ _ _ hw h]
      exact hnn _
    · rw [lookup_string _ _ _ _ hw h, hP, hM, hS]
      rw [hP', hM', hS'] at h0
      rcases h0 with h0 | h0 | h0 | h0 <;> simp only [h0] <;> exact hnn _
  · intro h
    rw [lookup_device _ _ _ _ hw h]
    exact ⟨rfl, hnn _, rfl⟩
  · intro h
    rw [lookup_configuration _ _ _ _ hw h]
    exact ⟨rfl, hnn _, rfl⟩
  · intro h h0
    rw [lookup_string _ _ _ _ hw h, if_pos h0]
    exact ⟨rfl, hnn _, rfl⟩
  · intro h h0
    rw [hP'] at h0
    rw [lookup_string _ _ _ _ hw h, hP, h0]
    exact ⟨rfl, hnn _, rfl⟩
  · intro h h0
    rw [hM'] at h0
    rw [lookup_string _ _ _ _ hw h, hP, hM, h0]
    exact ⟨rfl, hnn _, rfl⟩
  · intro h h0
    rw [hS'] at h0
    rw [lookup_string _ _ _ _ hw h, hP, hM, hS, h0]
    exact ⟨rfl, hnn _, rfl⟩

/-- Instance of C2 (amended): the Configuration request on the Prusa build returns a non-null
address and the length 62 stored in `TotalConfigurationSize`. -/
theorem C2_valid_selector_address_and_length_witness :
    (0x0200 : Nat) < 2 ^ 16
    ∧ knownSelector (DeviceDescriptor prusaBuild) (0x0200 / 256) (0x0200 % 256)
    ∧ (CALLBACK_USB_GetDescriptor (catalog prusaBuild) exampleMachine 0x0200 7).returnsRecord
        Object.ConfigurationDescriptor
        (ConfigurationDescriptor prusaBuild).Config.TotalConfigurationSize :=
  ⟨by decide, by decide,
   (C2_valid_selector_address_and_length prusaBuild exampleMachine 0x0200 7 (by decide)
     (by decide)).2.2.1 (by decide)⟩

/-- C3: a 16-bit `wValue` whose high byte is none of `DTYPE_Device`, `DTYPE_Configuration`,
`DTYPE_String`, or whose high byte is `DTYPE_String` and whose low byte is none of 0 and the
three string indices of the Device descriptor, makes the lookup store a null address and
return the no-descriptor sentinel, for every `wIndex`. -/
theorem C3_unknown_selector_not_found (cat : Catalog) (m : Machine) (wValue wIndex : Nat)
    (hw : wValue < 2 ^ 16)
    (hsel : (wValue / 256 ≠ DTYPE_Device ∧ wValue / 256 ≠ DTYPE_Configuration
              ∧ wValue / 256 ≠ DTYPE_String)
            ∨ (wValue / 256 = DTYPE_String ∧ wValue % 256 ≠ 0
              ∧ wValue % 256 ≠ cat.DeviceDescriptor.ProductStrIndex
              ∧ wValue % 256 ≠ cat.DeviceDescriptor.ManufacturerStrIndex
              ∧ wValue % 256 ≠ cat.DeviceDescriptor.SerialNumStrIndex)) :
    (CALLBACK_USB_GetDescriptor cat m wValue wIndex).DescriptorAddress = NULL
    ∧ (CALLBACK_USB_GetDescriptor cat m wValue wIndex).Size = NO_DESCRIPTOR := by
  rw [lookup_not_found cat m wValue wIndex hw hsel]
  exact ⟨rfl, rfl⟩

/-- Instance of C3: kind String with index 4 on the Prusa build is not found. -/
theorem C3_unknown_selector_not_found_witness :
    (0x0304 : Nat) < 2 ^ 16
    ∧ (0x0304 / 256 = DTYPE_String ∧ 0x0304 % 256 ≠ 0
        ∧ 0x0304 % 256 ≠ (catalog prusaBuild).DeviceDescriptor.ProductStrIndex
        ∧ 0x0304 % 256 ≠ (catalog prusaBuild).DeviceDescriptor.ManufacturerStrIndex
        ∧ 0x0304 % 256 ≠ (catalog prusaBuild).DeviceDescriptor.SerialNumStrIndex)
    ∧ (CALLBACK_USB_GetDescriptor (catalog prusaBuild) exampleMachine 0x0304 0).DescriptorAddress
        = NULL
    ∧ (CALLBACK_USB_GetDescriptor (catalog prusaBuild) exampleMachine 0x0304 0).Size
        = NO_DESCRIPTOR :=
  ⟨by decide, by decide,
   C3_unknown_selector_not_found (catalog prusaBuild) exampleMachine 0x0304 0 (by decide)
     (Or.inr (by decide))⟩

/-- C4: when the selector of a 16-bit `wValue` is not one of the valid selectors, the length
returned is `0xFFFF`, the value of `NO_DESCRIPTOR`, and the address stored is null. -/
theorem C4_not_found_length_is_0xFFFF (b : Build) (m : Machine) (wValue wIndex : Nat)
    (hw : wValue < 2 ^ 16)
    (hsel : ¬ knownSelector (DeviceDescriptor b) (wValue / 256) (wValue % 256)) :
    (CALLBACK_USB_GetDescriptor (catalog b) m wValue wIndex).Size = 0xFFFF
    ∧ NO_DESCRIPTOR = 0xFFFF
    ∧ (CALLBACK_USB_GetDescriptor (catalog b) m wValue wIndex).DescriptorAddress = NULL := by
  simp only [knownSelector, not_or, not_and] at hsel
  obtain ⟨h1, h2, h3⟩ := hsel
  have hnf : CALLBACK_USB_GetDescriptor (catalog b) m wValue wIndex =
      { Size := u16 NO_DESCRIPTOR, DescriptorAddress := NULL, machine := m } := by
    apply lookup_not_found (catalog b) m wValue wIndex hw
    by_cases h : wValue / 256 = DTYPE_String
    · obtain ⟨h0, hp, hm, hs⟩ := h3 h
      exact Or.inr ⟨h, h0, hp, hm, hs⟩
    · exact Or.inl ⟨h1, h2, h⟩
  rw [hnf]
  exact ⟨rfl, rfl, rfl⟩

/-- Instance of C4: kind 0x22 on the Prusa build returns length `0xFFFF` and a null address. -/
theorem C4_not_found_length_is_0xFFFF_witness :
    (0x2200 : Nat) < 2 ^ 16
    ∧ ¬ knownSelector (DeviceDescriptor prusaBuild) (0x2200 / 256) (0x2200 % 256)
    ∧ (CALLBACK_USB_GetDescriptor (catalog prusaBuild) exampleMachine 0x2200 0).Size = 0xFFFF
    ∧ (CALLBACK_USB_GetDescriptor (catalog prusaBuild) exampleMachine 0x2200 0).DescriptorAddress
        = NULL :=
  ⟨by decide, by decide,
   (C4_not_found_length_is_0xFFFF prusaBuild exampleMachine 0x2200 0 (by decide)
     (by decide)).1,
   (C4_not_found_length_is_0xFFFF prusaBuild exampleMachine 0x2200 0 (by decide)
     (by decide)).2.2⟩

/-- C5: after the Serial Number string is resolved, the serial-number object holds exactly 20
code units; for every position `p` of the 10 signature bytes at offsets `0x0E..0x17`, unit
`2p` is the hexadecimal character of the high nibble of byte `p` and unit `2p+1` that of its
low nibble (`'0'..'9'`, then uppercase `'A'..'F'`). When the ten bytes are
`1A 2B 3C 4D 5E 6F 70 81 92 A3` the units spell `1A2B3C4D5E6F708192A3`. -/
theorem C5_serial_units_are_hex_nibbles (b : Build) (m : Machine) (wIndex : Nat) :
    (CALLBACK_USB_GetDescriptor (catalog b) m (serialRequest b)
        wIndex).machine.SerialNumberString.units.length = 20
    ∧ (∀ p : Fin SN_LENGTH,
        (CALLBACK_USB_GetDescriptor (catalog b) m (serialRequest b)
            wIndex).machine.SerialNumberString.units[2 * p.val]?
          = some (hexChar_spec (u8 (m.signature (0x0E + p.val)) / 16))
        ∧ (CALLBACK_USB_GetDescriptor (catalog b) m (serialRequest b)
            wIndex).machine.SerialNumberString.units[2 * p.val + 1]?
          = some (hexChar_spec (u8 (m.signature (0x0E + p.val)) % 16)))
    ∧ ((∀ p : Fin SN_LENGTH, u8 (m.signature (0x0E + p.val)) = exampleBytes.getD p.val 0) →
        (CALLBACK_USB_GetDescriptor (catalog b) m (serialRequest b)
            wIndex).machine.SerialNumberString.units = L "1A2B3C4D5E6F708192A3") := by
  rw [serialRequest_outcome]
  have hunits : ∀ p : Fin SN_LENGTH,
      (serialDerived m).SerialNumberString.units[2 * p.val]?
          = some (hexChar_spec (u8 (m.signature (0x0E + p.val)) / 16))
      ∧ (serialDerived m).SerialNumberString.units[2 * p.val + 1]?
          = some (hexChar_spec (u8 (m.signature (0x0E + p.val)) % 16)) := by
    intro p
    have hp := p.isLt
    rw [serialDerived_unit m _ (by omega), serialDerived_unit m _ (by omega),
      derivedUnit_even _ _ hp, derivedUnit_odd _ _ hp]
    exact ⟨rfl, rfl⟩
  have hlen : (serialDerived m).SerialNumberString.units.length = 20 := by
    simp [SerialNumberString_t.units]
  refine ⟨hlen, hunits, ?_⟩
  intro hex
  apply List.ext_getElem?
  intro n
  by_cases hn : n < 20
  · have hq : n = 2 * (n / 2) ∨ n = 2 * (n / 2) + 1 := by omega
    have hlt : n / 2 < SN_LENGTH := by
      simp only [SN_LENGTH]
      omega
    have hu := hunits ⟨n / 2, hlt⟩
    have hb := hex ⟨n / 2, hlt⟩
    simp only at hu hb
    rw [hb] at hu
    rcases hq with hq | hq
    · rw [hq, hu.1]
      interval_cases n <;> rfl
    · rw [hq, hu.2]
      interval_cases n <;> rfl
  · rw [List.getElem?_eq_none (le_trans (le_of_eq hlen) (by omega)),
      List.getElem?_eq_none (by simp [L]; omega)]

/-- Instance of C5 on the example state of section 8 of the specification: its ten signature
bytes are the example bytes, and the derived units spell `1A2B3C4D5E6F708192A3`. -/
theorem C5_serial_units_are_hex_nibbles_witness :
    (∀ p : Fin SN_LENGTH,
        u8 (exampleMachine.signature (0x0E + p.val)) = exampleBytes.getD p.val 0)
    ∧ (CALLBACK_USB_GetDescriptor (catalog prusaBuild) exampleMachine (serialRequest prusaBuild)
          0).machine.SerialNumberString.units = L "1A2B3C4D5E6F708192A3" :=
  ⟨by decide,
   (C5_serial_units_are_hex_nibbles prusaBuild exampleMachine 0).2.2 (by decide)⟩

/-- C6, evaluated on the Arduino Leonardo identity (`DEVICE_PID == 0x0036`,
`DEVICE_VID == 0x2341`): the `Header.Size` of `ProductString` is 124 while its 16 characters
serialise to 34 bytes, and the `Header.Size` of `ManufNameString` is 58 while its 11
characters serialise to 24 bytes. For every build, the header of `ProductString` is exact
precisely when `DEVICE_PID == 0x0003`, and that of `ManufNameString` precisely when
`DEVICE_VID == 0x2c99`. -/
theorem C6_string_header_size_exact_only_for_prusa_identity :
    ((ProductString leonardoBuild).Header.Size = 124
      ∧ (ProductString leonardoBuild).UnicodeString.length = 16
      ∧ (ProductString leonardoBuild).bytes.length = 34
      ∧ (ManufNameString leonardoBuild).Header.Size = 58
      ∧ (ManufNameString leonardoBuild).UnicodeString.length = 11
      ∧ (ManufNameString leonardoBuild).bytes.length = 24)
    ∧ (∀ b : Build,
        ((ProductString b).Header.Size = 2 + 2 * (ProductString b).UnicodeString.length
          ↔ b.DEVICE_PID = 0x0003)
        ∧ ((ManufNameString b).Header.Size = 2 + 2 * (ManufNameString b).UnicodeString.length
          ↔ b.DEVICE_VID = 0x2c99)) := by
  refine ⟨by decide, ?_⟩
  intro b
  have hP : u8 (USB_STRING_LEN 61) = 124 := by decide
  have hM : u8 (USB_STRING_LEN 28) = 58 := by decide
  have e1 : (L "Original Prusa i3 MK3 Multi Material 2.0 upgrade (bootloader)").length = 61 := by
    decide
  have e2 : (L "Arduino Leonardo").length = 16 := by decide
  have e3 : (L "Arduino Micro   ").length = 16 := by decide
  have e4 : (L "Arduino Esplora ").length = 16 := by decide
  have e5 : (L "USB IO board    ").length = 16 := by decide
  have f1 : (L "Prusa Research (prusa3d.com)").length = 28 := by decide
  have f2 : (L "Arduino LLC").length = 11 := by decide
  have f3 : (L "Unknown    ").length = 11 := by decide
  constructor
  · simp only [ProductString, hP]
    split_ifs with h1 h2 h3 h4
    · simp only [e1, h1]
    · simp only [e2, h1]
      decide
    · simp only [e3, h1]
      decide
    · simp only [e4, h1]
      decide
    · simp only [e5, h1]
      decide
  · simp only [ManufNameString, hM]
    split_ifs with h1 h2
    · simp only [f1, h1]
    · simp only [f2, h1]
      decide
    · simp only [f3, h1]
      decide

/-- C7: for every build, the `Header.Size` field of the Device descriptor, of each of the
nine records nested in the Configuration descriptor and of the Language string equals the
length of the record's serialised form: Device 18, configuration header 9, interfaces 9,
functional header 5, ACM 4, union 5, endpoints 7, Language 4. -/
theorem C7_fixed_record_header_sizes_exact (b : Build) :
    ((DeviceDescriptor b).Header.Size = (DeviceDescriptor b).bytes.length
      ∧ (DeviceDescriptor b).Header.Size = 18)
    ∧ ((ConfigurationDescriptor b).Config.Header.Size
          = (ConfigurationDescriptor b).Config.bytes.length
      ∧ (ConfigurationDescriptor b).Config.Header.Size = 9)
    ∧ ((ConfigurationDescriptor b).CDC_CCI_Interface.Header.Size
          = (ConfigurationDescriptor b).CDC_CCI_Interface.bytes.length
      ∧ (ConfigurationDescriptor b).CDC_CCI_Interface.Header.Size = 9)
    ∧ ((ConfigurationDescriptor b).CDC_Functional_Header.Header.Size
          = (ConfigurationDescriptor b).CDC_Functional_Header.bytes.length
      ∧ (ConfigurationDescriptor b).CDC_Functional_Header.Header.Size = 5)
    ∧ ((ConfigurationDescriptor b).CDC_Functional_ACM.Header.Size
          = (ConfigurationDescriptor b).CDC_Functional_ACM.bytes.length
      ∧ (ConfigurationDescriptor b).CDC_Functional_ACM.Header.Size = 4)
    ∧ ((ConfigurationDescriptor b).CDC_Functional_Union.Header.Size
          = (ConfigurationDescriptor b).CDC_Functional_Union.bytes.length
      ∧ (ConfigurationDescriptor b).CDC_Functional_Union.Header.Size = 5)
    ∧ ((ConfigurationDescriptor b).CDC_NotificationEndpoint.Header.Size
          = (ConfigurationDescriptor b).CDC_NotificationEndpoint.bytes.length
      ∧ (ConfigurationDescriptor b).CDC_NotificationEndpoint.Header.Size = 7)
    ∧ ((ConfigurationDescriptor b).CDC_DCI_Interface.Header.Size
          = (ConfigurationDescriptor b).CDC_DCI_Interface.bytes.length
      ∧ (ConfigurationDescriptor b).CDC_DCI_Interface.Header.Size = 9)
    ∧ ((ConfigurationDescriptor b).CDC_DataOutEndpoint.Header.Size
          = (ConfigurationDescriptor b).CDC_DataOutEndpoint.bytes.length
      ∧ (ConfigurationDescriptor b).CDC_DataOutEndpoint.Header.Size = 7)
    ∧ ((ConfigurationDescriptor b).CDC_DataInEndpoint.Header.Size
          = (ConfigurationDescriptor b).CDC_DataInEndpoint.bytes.length
      ∧ (ConfigurationDescriptor b).CDC_DataInEndpoint.Header.Size = 7)
    ∧ (LanguageString.Header.Size = LanguageString.bytes.length
      ∧ LanguageString.Header.Size = 4) := by
  refine ⟨⟨?_, ?_⟩, ⟨?_, ?_⟩, ⟨?_, ?_⟩, ⟨?_, ?_⟩, ⟨?_, ?_⟩, ⟨?_, ?_⟩, ⟨?_, ?_⟩, ⟨?_, ?_⟩,
    ⟨?_, ?_⟩, ⟨?_, ?_⟩, ⟨?_, ?_⟩⟩ <;> rfl

/-- C8: for every build, `ConfigurationDescriptor.Config.TotalConfigurationSize` equals the
length of the serialised aggregate, equals the sum of the `Header.Size` fields of the nine
nested records, and equals the length the lookup returns for kind Configuration. -/
theorem C8_total_configuration_size (b : Build) (m : Machine) (wValue wIndex : Nat)
    (hw : wValue < 2 ^ 16) (h : wValue / 256 = DTYPE_Configuration) :
    (ConfigurationDescriptor b).Config.TotalConfigurationSize
        = (ConfigurationDescriptor b).bytes.length
    ∧ (ConfigurationDescriptor b).Config.TotalConfigurationSize
        = (ConfigurationDescriptor b).headerSizes.sum
    ∧ (ConfigurationDescriptor b).Config.TotalConfigurationSize
        = (CALLBACK_USB_GetDescriptor (catalog b) m wValue wIndex).Size
    ∧ (ConfigurationDescriptor b).Config.TotalConfigurationSize = 62 := by
  have hT : (ConfigurationDescriptor b).Config.TotalConfigurationSize = 62 := rfl
  have hL : (ConfigurationDescriptor b).bytes.length = 62 := by
    simp only [USB_Descriptor_Configuration_t.bytes, USB_Descriptor_Configuration_Header_t.bytes,
      USB_Descriptor_Interface_t.bytes, USB_CDC_Descriptor_FunctionalHeader_t.bytes,
      USB_CDC_Descriptor_FunctionalACM_t.bytes, USB_CDC_Descriptor_FunctionalUnion_t.bytes,
      USB_Descriptor_Endpoint_t.bytes, USB_Descriptor_Header_t.bytes, le, List.length_append,
      List.length_cons, List.length_nil]
  have hS : (ConfigurationDescriptor b).headerSizes.sum = 62 := by
    simp only [USB_Descriptor_Configuration_t.headerSizes, ConfigurationDescriptor]
    decide
  rw [lookup_configuration _ _ _ _ hw h, hT, hL, hS]
  exact ⟨rfl, rfl, rfl, rfl⟩

/-- Instance of C8: the Configuration request `0x0200` on the Prusa build returns the 62
bytes declared in `TotalConfigurationSize`. -/
theorem C8_total_configuration_size_witness :
    (0x0200 : Nat) < 2 ^ 16 ∧ 0x0200 / 256 = DTYPE_Configuration
    ∧ (ConfigurationDescriptor prusaBuild).Config.TotalConfigurationSize
        = (CALLBACK_USB_GetDescriptor (catalog prusaBuild) exampleMachine 0x0200 0).Size :=
  ⟨by decide, by decide,
   (C8_total_configuration_size prusaBuild exampleMachine 0x0200 0 (by decide)
     (by decide)).2.2.1⟩

/-- C9: kind String with index 0 returns the address of `LanguageString` and
`LanguageString.Header.Size`, for every `wIndex`, every state (so every prior content of the
serial-number object) and every assignment of the three string-index fields of the Device
descriptor, an index of 0 among them included. -/
theorem C9_index_zero_is_language_string (b : Build) (m : Machine) (wIndex : Nat)
    (iManufacturer iProduct iSerial : Nat) :
    (CALLBACK_USB_GetDescriptor
        { catalog b with
          DeviceDescriptor :=
            { DeviceDescriptor b with
              ManufacturerStrIndex := iManufacturer,
              ProductStrIndex := iProduct,
              SerialNumStrIndex := iSerial } }
        m (makeWValue DTYPE_String 0) wIndex)
      = { Size := LanguageString.Header.Size,
          DescriptorAddress := addressOf Object.LanguageString,
          machine := m } := by
  rw [lookup_string _ _ _ _ (by decide) (by decide), if_pos (by decide)]
  rfl

/-- C10: serial-number derivation is deterministic and idempotent. For every signature
content and every two prior contents `s₁`, `s₂` of the serial-number object, resolving the
Serial Number string leaves the same object (header and 20 code units) and returns the same
length; resolving it again from the resulting state leaves the object and the length
unchanged. -/
theorem C10_serial_derivation_deterministic_idempotent (b : Build) (m : Machine)
    (s₁ s₂ : SerialNumberString_t) (wIndex₁ wIndex₂ : Nat) :
    (CALLBACK_USB_GetDescriptor (catalog b) { m with SerialNumberString := s₁ }
        (serialRequest b) wIndex₁).machine.SerialNumberString
      = (CALLBACK_USB_GetDescriptor (catalog b) { m with SerialNumberString := s₂ }
          (serialRequest b) wIndex₂).machine.SerialNumberString
    ∧ (CALLBACK_USB_GetDescriptor (catalog b) { m with SerialNumberString := s₁ }
        (serialRequest b) wIndex₁).Size
      = (CALLBACK_USB_GetDescriptor (catalog b) { m with SerialNumberString := s₂ }
          (serialRequest b) wIndex₂).Size
    ∧ (CALLBACK_USB_GetDescriptor (catalog b)
        (CALLBACK_USB_GetDescriptor (catalog b) m (serialRequest b) wIndex₁).machine
        (serialRequest b) wIndex₂).machine.SerialNumberString
      = (CALLBACK_USB_GetDescriptor (catalog b) m (serialRequest b)
          wIndex₁).machine.SerialNumberString
    ∧ (CALLBACK_USB_GetDescriptor (catalog b)
        (CALLBACK_USB_GetDescriptor (catalog b) m (serialRequest b) wIndex₁).machine
        (serialRequest b) wIndex₂).Size
      = (CALLBACK_USB_GetDescriptor (catalog b) m (serialRequest b) wIndex₁).Size := by
  refine ⟨?_, ?_, ?_, ?_⟩ <;> simp only [serialRequest_outcome] <;> rfl

/-- C11: the Configuration descriptor declares `TotalInterfaces = 2`, and for endpoint numbers
`CDC_RX_EPNUM`, `CDC_TX_EPNUM` below 16 the address of `CDC_DataOutEndpoint` has bit 7 clear
and low bits `CDC_RX_EPNUM`, while the address of `CDC_DataInEndpoint` has bit 7 set and low
bits `CDC_TX_EPNUM`: the two direction bits are opposite. -/
theorem C11_interfaces_and_data_endpoint_directions (b : Build)
    (hrx : b.CDC_RX_EPNUM < 16) (htx : b.CDC_TX_EPNUM < 16) :
    (ConfigurationDescriptor b).Config.TotalInterfaces = 2
    ∧ ((ConfigurationDescriptor b).CDC_DataOutEndpoint.EndpointAddress).testBit 7 = false
    ∧ (ConfigurationDescriptor b).CDC_DataOutEndpoint.EndpointAddress &&& 0x0F = b.CDC_RX_EPNUM
    ∧ ((ConfigurationDescriptor b).CDC_DataInEndpoint.EndpointAddress).testBit 7 = true
    ∧ (ConfigurationDescriptor b).CDC_DataInEndpoint.EndpointAddress &&& 0x0F = b.CDC_TX_EPNUM
    ∧ ((ConfigurationDescriptor b).CDC_DataOutEndpoint.EndpointAddress).testBit 7
        ≠ ((ConfigurationDescriptor b).CDC_DataInEndpoint.EndpointAddress).testBit 7 := by
  have hout : (ConfigurationDescriptor b).CDC_DataOutEndpoint.EndpointAddress
      = u8 (ENDPOINT_DIR_OUT ||| b.CDC_RX_EPNUM) := rfl
  have hin : (ConfigurationDescriptor b).CDC_DataInEndpoint.EndpointAddress
      = u8 (ENDPOINT_DIR_IN ||| b.CDC_TX_EPNUM) := rfl
  rw [hout, hin]
  generalize b.CDC_RX_EPNUM = rx at hrx
  generalize b.CDC_TX_EPNUM = tx at htx
  refine ⟨rfl, ?_, ?_, ?_, ?_, ?_⟩
  · interval_cases rx <;> decide
  · interval_cases rx <;> decide
  · interval_cases tx <;> decide
  · interval_cases tx <;> decide
  · interval_cases rx <;> interval_cases tx <;> decide

/-- Instance of C11 on the Prusa build (`CDC_RX_EPNUM = 4`, `CDC_TX_EPNUM = 3`): the
addresses are `0x04` and `0x83`. -/
theorem C11_interfaces_and_data_endpoint_directions_witness :
    prusaBuild.CDC_RX_EPNUM < 16 ∧ prusaBuild.CDC_TX_EPNUM < 16
    ∧ (ConfigurationDescriptor prusaBuild).Config.TotalInterfaces = 2
    ∧ (ConfigurationDescriptor prusaBuild).CDC_DataOutEndpoint.EndpointAddress = 0x04
    ∧ (ConfigurationDescriptor prusaBuild).CDC_DataInEndpoint.EndpointAddress = 0x83
    ∧ ((ConfigurationDescriptor prusaBuild).CDC_DataOutEndpoint.EndpointAddress).testBit 7
        ≠ ((ConfigurationDescriptor prusaBuild).CDC_DataInEndpoint.EndpointAddress).testBit 7 :=
  ⟨by decide, by decide,
   (C11_interfaces_and_data_endpoint_directions prusaBuild (by decide) (by decide)).1,
   by decide, by decide,
   (C11_interfaces_and_data_endpoint_directions prusaBuild (by decide) (by decide)).2.2.2.2.2⟩

/-- C12: for every 16-bit `wValue` whose selector is not String/`SerialNumStrIndex` (the
not-found selectors included) and every `wIndex`, the lookup leaves the whole state, and so
the serial-number object, unchanged; the catalog records are constants that no call can
modify. For every selector the status register, the signature row and the program memory
are the same after the call, so the serial-number object is the only state that can
differ, and only for the Serial Number request. -/
theorem C12_lookup_frame (cat : Catalog) (m : Machine) (wValue wIndex : Nat)
    (hw : wValue < 2 ^ 16)
    (hsel : ¬ (wValue / 256 = DTYPE_String
                ∧ wValue % 256 = cat.DeviceDescriptor.SerialNumStrIndex)) :
    (CALLBACK_USB_GetDescriptor cat m wValue wIndex).machine = m
    ∧ (CALLBACK_USB_GetDescriptor cat m wValue wIndex).machine.SerialNumberString
        = m.SerialNumberString
    ∧ (∀ (m' : Machine) (wValue' wIndex' : Nat), wValue' < 2 ^ 16 →
        (CALLBACK_USB_GetDescriptor cat m' wValue' wIndex').machine.SREG = m'.SREG
        ∧ (CALLBACK_USB_GetDescriptor cat m' wValue' wIndex').machine.signature = m'.signature
        ∧ (CALLBACK_USB_GetDescriptor cat m' wValue' wIndex').machine.progmem = m'.progmem
        ∧ ((CALLBACK_USB_GetDescriptor cat m' wValue' wIndex').machine.SerialNumberString
              ≠ m'.SerialNumberString →
            wValue' / 256 = DTYPE_String
              ∧ wValue' % 256 = cat.DeviceDescriptor.SerialNumStrIndex)) := by
  have hm := lookup_machine_unchanged cat m wValue wIndex hw hsel
  refine ⟨hm, by rw [hm], ?_⟩
  intro m' wValue' wIndex' hw'
  obtain ⟨h1, h2, h3⟩ := lookup_machine_frame cat m' wValue' wIndex' hw'
  refine ⟨h1, h2, h3, ?_⟩
  intro hne
  by_contra hsel'
  exact hne (by rw [lookup_machine_unchanged cat m' wValue' wIndex' hw' hsel'])

/-- Instance of C12: the Manufacturer string request `0x0302` on the Prusa build leaves the
example state unchanged. -/
theorem C12_lookup_frame_witness :
    (0x0302 : Nat) < 2 ^ 16
    ∧ ¬ (0x0302 / 256 = DTYPE_String
          ∧ 0x0302 % 256 = (catalog prusaBuild).DeviceDescriptor.SerialNumStrIndex)
    ∧ (CALLBACK_USB_GetDescriptor (catalog prusaBuild) exampleMachine 0x0302 5).machine
        = exampleMachine :=
  ⟨by decide, by decide,
   (C12_lookup_frame (catalog prusaBuild) exampleMachine 0x0302 5 (by decide) (by decide)).1⟩

/-- C13: for every state and every offset, `DISABLE_INT` yields the flags it read and clears
the interrupt-enable bit (bit 7), `READ_SIG_BYTE` ends with the one `RESTORE_INT` of the
flags saved by its `DISABLE_INT`, and the status register after `READ_SIG_BYTE` equals the
status register before it. After a whole serial-number derivation the status register, and
with it the interrupt-enable bit, is the one before the call. -/
theorem C13_read_sig_byte_restores_status_register (b : Build) (m : Machine)
    (idx wIndex : Nat) :
    (DISABLE_INT m).1 = m.SREG.val
    ∧ ((DISABLE_INT m).2.SREG.val).testBit 7 = false
    ∧ (∀ flag : Fin 256, (RESTORE_INT m flag.val).SREG = flag)
    ∧ (READ_SIG_BYTE m idx).2
        = RESTORE_INT
            (out_SPMCSR_lpm (DISABLE_INT m).2 (u8 (_BV SPMEN ||| _BV SIGRD)) (u16 idx)).2
            (u8 (DISABLE_INT m).1)
    ∧ (READ_SIG_BYTE m idx).2.SREG = m.SREG
    ∧ (CALLBACK_USB_GetDescriptor (catalog b) m (serialRequest b) wIndex).machine.SREG = m.SREG
    ∧ ((CALLBACK_USB_GetDescriptor (catalog b) m (serialRequest b)
          wIndex).machine.SREG.val).testBit 7 = (m.SREG.val).testBit 7 := by
  have hclr : ∀ r : Fin 256, ((Fin.ofNat (r.val &&& 0x7F) : Fin 256).val).testBit 7 = false := by
    intro r
    have hle : r.val &&& 0x7F ≤ 0x7F := Nat.and_le_right
    have hval : (Fin.ofNat (r.val &&& 0x7F) : Fin 256).val = r.val &&& 0x7F := by
      simp only [Fin.ofNat]
      omega
    rw [hval, Nat.testBit_and]
    have h7 : (0x7F : Nat).testBit 7 = false := by decide
    rw [h7, Bool.and_false]
  have hrest : ∀ flag : Fin 256, (Fin.ofNat flag.val : Fin 256) = flag := by
    intro flag
    apply Fin.ext
    have := flag.isLt
    simp only [Fin.ofNat]
    omega
  refine ⟨rfl, hclr m.SREG, fun flag => hrest flag, rfl, ?_, ?_, ?_⟩
  · simp only [READ_SIG_BYTE, RESTORE_INT, DISABLE_INT, SREG_restore]
  · rw [serialRequest_outcome]
    rfl
  · rw [serialRequest_outcome]
    rfl

/-- C14: the outcome of the lookup (length, address and state) depends on the request only
through the high and the low byte of `wValue`. Two 16-bit requests with the same high byte
give the same outcome whatever the two `wIndex` values are, provided the low bytes agree or
the kind is Device or Configuration (for which all 256 low bytes give the same outcome). -/
theorem C14_outcome_depends_on_kind_and_index_only (cat : Catalog) (m : Machine)
    (wValue₁ wValue₂ wIndex₁ wIndex₂ : Nat)
    (hw₁ : wValue₁ < 2 ^ 16) (hw₂ : wValue₂ < 2 ^ 16)
    (hkind : wValue₁ / 256 = wValue₂ / 256)
    (hindex : wValue₁ % 256 = wValue₂ % 256 ∨ wValue₁ / 256 = DTYPE_Device
                ∨ wValue₁ / 256 = DTYPE_Configuration) :
    CALLBACK_USB_GetDescriptor cat m wValue₁ wIndex₁
      = CALLBACK_USB_GetDescriptor cat m wValue₂ wIndex₂ := by
  rcases hindex with h | h | h
  · have heq : wValue₁ = wValue₂ := by omega
    rw [heq]
    rfl
  · rw [lookup_device cat m wValue₁ wIndex₁ hw₁ h,
      lookup_device cat m wValue₂ wIndex₂ hw₂ (hkind ▸ h)]
  · rw [lookup_configuration cat m wValue₁ wIndex₁ hw₁ h,
      lookup_configuration cat m wValue₂ wIndex₂ hw₂ (hkind ▸ h)]

/-- Instance of C14: the Device requests `0x0100` with `wIndex = 0` and `0x01FF` with
`wIndex = 9` have the same outcome on the Prusa build. -/
theorem C14_outcome_depends_on_kind_and_index_only_witness :
    (0x0100 : Nat) < 2 ^ 16 ∧ (0x01FF : Nat) < 2 ^ 16 ∧ 0x0100 / 256 = 0x01FF / 256
    ∧ 0x0100 / 256 = DTYPE_Device
    ∧ CALLBACK_USB_GetDescriptor (catalog prusaBuild) exampleMachine 0x0100 0
        = CALLBACK_USB_GetDescriptor (catalog prusaBuild) exampleMachine 0x01FF 9 :=
  ⟨by decide, by decide, by decide, by decide,
   C14_outcome_depends_on_kind_and_index_only (catalog prusaBuild) exampleMachine
     0x0100 0x01FF 0 9 (by decide) (by decide) (by decide) (Or.inr (Or.inl (by decide)))⟩

/-- C15: one serial-number derivation returns after exactly 20 = 2 × `SN_LENGTH` reads of the
signature row, at the offsets 14, 14, 15, 15, ..., 23, 23 in this order: every offset read
is `(0x07 * 2) + p` with `p < SN_LENGTH`, the offsets are non-decreasing, and nothing else
of the signature row is read. -/
theorem C15_serial_derivation_reads (b : Build) (m : Machine) (wIndex : Nat) :
    (CALLBACK_USB_GetDescriptor (catalog b) m (serialRequest b) wIndex).machine.sigReads
      = m.sigReads
          ++ [14, 14, 15, 15, 16, 16, 17, 17, 18, 18, 19, 19, 20, 20, 21, 21, 22, 22, 23, 23]
    ∧ ([14, 14, 15, 15, 16, 16, 17, 17, 18, 18, 19, 19, 20, 20, 21, 21, 22, 22, 23,
          23] : List Nat).length = 2 * SN_LENGTH
    ∧ (∀ a ∈ ([14, 14, 15, 15, 16, 16, 17, 17, 18, 18, 19, 19, 20, 20, 21, 21, 22, 22, 23,
          23] : List Nat), ∃ p, p < SN_LENGTH ∧ a = (0x07 * 2) + p)
    ∧ ([14, 14, 15, 15, 16, 16, 17, 17, 18, 18, 19, 19, 20, 20, 21, 21, 22, 22, 23,
          23] : List Nat).Pairwise (· ≤ ·) := by
  refine ⟨?_, by decide, ?_, by decide⟩
  · rw [serialRequest_outcome]
    simp only [serialDerived]
    congr 1
  · intro a ha
    simp only [List.mem_cons, List.mem_singleton, List.not_mem_nil, or_false] at ha
    have hlen : SN_LENGTH = 10 := rfl
    exact ⟨a - 14, by omega, by omega⟩

/-- C16: after the Serial Number string is resolved, the header of the serial-number object
has `Type = DTYPE_String` and `Size = USB_STRING_LEN(20) = 2 + 2 × 20 = 42`, which is the
packed byte size of the object, the length of its serialised form and the length returned.
Each of its `SN_LENGTH × 2 = 20` code units is the hexadecimal character this derivation
computes from the signature row, whatever the object held before. -/
theorem C16_serial_object_filled_exactly (b : Build) (m : Machine) (wIndex : Nat) :
    (CALLBACK_USB_GetDescriptor (catalog b) m (serialRequest b)
        wIndex).machine.SerialNumberString.Header.Type_ = DTYPE_String
    ∧ (CALLBACK_USB_GetDescriptor (catalog b) m (serialRequest b)
        wIndex).machine.SerialNumberString.Header.Size = USB_STRING_LEN 20
    ∧ USB_STRING_LEN 20 = 2 + 2 * 20
    ∧ USB_STRING_LEN 20 = 42
    ∧ sizeof_SerialNumberString = 42
    ∧ (CALLBACK_USB_GetDescriptor (catalog b) m (serialRequest b)
        wIndex).machine.SerialNumberString.bytes.length = 42
    ∧ (CALLBACK_USB_GetDescriptor (catalog b) m (serialRequest b) wIndex).Size = 42
    ∧ (CALLBACK_USB_GetDescriptor (catalog b) m (serialRequest b)
        wIndex).machine.SerialNumberString.units.length = SN_LENGTH * 2
    ∧ (∀ j : Fin (SN_LENGTH * 2),
        (CALLBACK_USB_GetDescriptor (catalog b) m (serialRequest b)
            wIndex).machine.SerialNumberString.UnicodeString j
          = hexChar_spec (nibbleAt_spec m.signature j.val)) := by
  rw [serialRequest_outcome]
  refine ⟨rfl, rfl, rfl, rfl, rfl, ?_, rfl, ?_, ?_⟩
  · simp [SerialNumberString_t.bytes, SerialNumberString_t.units, USB_Descriptor_Header_t.bytes,
      le, List.length_flatten, List.map_map, Function.comp_def]
  · simp only [SerialNumberString_t.units, List.length_ofFn]
  · intro j
    exact derivedUnit_eq_hexChar m.signature j.val j.isLt

/-- C17: the three string indices stored in the Device descriptor are pairwise distinct and
non-zero. For a 16-bit request of kind String, each of the Language, Product, Manufacturer
and Serial Number strings is therefore returned for exactly one index (0, `ProductStrIndex`,
`ManufacturerStrIndex`, `SerialNumStrIndex`), and the four addresses are pairwise
distinct. -/
theorem C17_string_indices_do_not_shadow (b : Build) (m : Machine) (wValue wIndex : Nat)
    (hw : wValue < 2 ^ 16) (hkind : wValue / 256 = DTYPE_String) :
    ((DeviceDescriptor b).ProductStrIndex ≠ 0
      ∧ (DeviceDescriptor b).ManufacturerStrIndex ≠ 0
      ∧ (DeviceDescriptor b).SerialNumStrIndex ≠ 0
      ∧ (DeviceDescriptor b).ProductStrIndex ≠ (DeviceDescriptor b).ManufacturerStrIndex
      ∧ (DeviceDescriptor b).ProductStrIndex ≠ (DeviceDescriptor b).SerialNumStrIndex
      ∧ (DeviceDescriptor b).ManufacturerStrIndex ≠ (DeviceDescriptor b).SerialNumStrIndex)
    ∧ ((CALLBACK_USB_GetDescriptor (catalog b) m wValue wIndex).DescriptorAddress
          = addressOf Object.LanguageString ↔ wValue % 256 = 0)
    ∧ ((CALLBACK_USB_GetDescriptor (catalog b) m wValue wIndex).DescriptorAddress
          = addressOf Object.ProductString
        ↔ wValue % 256 = (DeviceDescriptor b).ProductStrIndex)
    ∧ ((CALLBACK_USB_GetDescriptor (catalog b) m wValue wIndex).DescriptorAddress
          = addressOf Object.ManufNameString
        ↔ wValue % 256 = (DeviceDescriptor b).ManufacturerStrIndex)
    ∧ ((CALLBACK_USB_GetDescriptor (catalog b) m wValue wIndex).DescriptorAddress
          = addressOf Object.SerialNumberString
        ↔ wValue % 256 = (DeviceDescriptor b).SerialNumStrIndex)
    ∧ [addressOf Object.LanguageString, addressOf Object.ProductString,
        addressOf Object.ManufNameString, addressOf Object.SerialNumberString].Nodup := by
  have hP : (catalog b).DeviceDescriptor.ProductStrIndex = 1 := rfl
  have hM : (catalog b).DeviceDescriptor.ManufacturerStrIndex = 2 := rfl
  have hS : (catalog b).DeviceDescriptor.SerialNumStrIndex = 3 := rfl
  have hP' : (DeviceDescriptor b).ProductStrIndex = 1 := rfl
  have hM' : (DeviceDescriptor b).ManufacturerStrIndex = 2 := rfl
  have hS' : (DeviceDescriptor b).SerialNumStrIndex = 3 := rfl
  rw [lookup_string (catalog b) m wValue wIndex hw hkind, hP, hM, hS, hP', hM', hS']
  refine ⟨by decide, ?_, ?_, ?_, ?_, by decide⟩ <;>
    split_ifs <;> simp_all [addressOf, NULL]

/-- Instance of C17: on the Prusa build the request `0x0303` returns the Serial Number string
and index 3 is the only index that does. -/
theorem C17_string_indices_do_not_shadow_witness :
    (0x0303 : Nat) < 2 ^ 16 ∧ 0x0303 / 256 = DTYPE_String
    ∧ ((CALLBACK_USB_GetDescriptor (catalog prusaBuild) exampleMachine 0x0303 0).DescriptorAddress
          = addressOf Object.SerialNumberString
        ↔ 0x0303 % 256 = (DeviceDescriptor prusaBuild).SerialNumStrIndex) :=
  ⟨by decide, by decide,
   (C17_string_indices_do_not_shadow prusaBuild exampleMachine 0x0303 0 (by decide)
     (by decide)).2.2.2.2.1⟩

/-- C18: serial-number derivation is injective on the 10 signature bytes it reads. Two
signature contents that differ in a byte at one of the offsets 14..23 give different
20-character serial strings, and decoding a derived string as uppercase hexadecimal pairs
gives back exactly the 10 bytes it was derived from. -/
theorem C18_serial_derivation_injective (b : Build) (m₁ m₂ : Machine) (wIndex₁ wIndex₂ : Nat)
    (hdiff : ∃ p : Fin SN_LENGTH,
      u8 (m₁.signature (0x0E + p.val)) ≠ u8 (m₂.signature (0x0E + p.val))) :
    (CALLBACK_USB_GetDescriptor (catalog b) m₁ (serialRequest b)
        wIndex₁).machine.SerialNumberString.units
      ≠ (CALLBACK_USB_GetDescriptor (catalog b) m₂ (serialRequest b)
          wIndex₂).machine.SerialNumberString.units
    ∧ decodeHexPairs_spec
        (CALLBACK_USB_GetDescriptor (catalog b) m₁ (serialRequest b)
          wIndex₁).machine.SerialNumberString.units
      = signatureBytes m₁.signature
    ∧ decodeHexPairs_spec
        (CALLBACK_USB_GetDescriptor (catalog b) m₂ (serialRequest b)
          wIndex₂).machine.SerialNumberString.units
      = signatureBytes m₂.signature
    ∧ (CALLBACK_USB_GetDescriptor (catalog b) m₁ (serialRequest b)
        wIndex₁).machine.SerialNumberString.units.length = 2 * SN_LENGTH := by
  have hround : ∀ m : Machine,
      decodeHexPairs_spec (serialDerived m).SerialNumberString.units
        = signatureBytes m.signature := by
    intro m
    rw [serialDerived_units_eq_encode, decode_encode _ (signatureBytes_lt m.signature)]
  rw [serialRequest_outcome, serialRequest_outcome]
  refine ⟨?_, hround m₁, hround m₂, ?_⟩
  · intro heq
    obtain ⟨p, hp⟩ := hdiff
    have hbytes : signatureBytes m₁.signature = signatureBytes m₂.signature := by
      rw [← hround m₁, ← hround m₂]
      exact congrArg decodeHexPairs_spec heq
    have h1 := signatureBytes_getElem? m₁.signature p.val p.isLt
    have h2 := signatureBytes_getElem? m₂.signature p.val p.isLt
    rw [hbytes, h2] at h1
    exact hp (Option.some.inj h1).symm
  · show (serialDerived m₁).SerialNumberString.units.length = 2 * SN_LENGTH
    simp only [SerialNumberString_t.units, List.length_ofFn]
    rfl

/-- Instance of C18: the example state and the same state with an all-zero signature row
differ in the byte at offset 14, and their serial strings differ. -/
theorem C18_serial_derivation_injective_witness :
    (∃ p : Fin SN_LENGTH,
      u8 (exampleMachine.signature (0x0E + p.val))
        ≠ u8 ({ exampleMachine with signature := fun _ => 0 }.signature (0x0E + p.val)))
    ∧ (CALLBACK_USB_GetDescriptor (catalog prusaBuild) exampleMachine (serialRequest prusaBuild)
          0).machine.SerialNumberString.units
        ≠ (CALLBACK_USB_GetDescriptor (catalog prusaBuild)
            { exampleMachine with signature := fun _ => 0 } (serialRequest prusaBuild)
            0).machine.SerialNumberString.units
    ∧ decodeHexPairs_spec
        (CALLBACK_USB_GetDescriptor (catalog prusaBuild) exampleMachine (serialRequest prusaBuild)
          0).machine.SerialNumberString.units
      = exampleBytes :=
  ⟨⟨0, by decide⟩,
   (C18_serial_derivation_injective prusaBuild exampleMachine
     { exampleMachine with signature := fun _ => 0 } 0 0 ⟨0, by decide⟩).1,
   (C18_serial_derivation_injective prusaBuild exampleMachine
     { exampleMachine with signature := fun _ => 0 } 0 0 ⟨0, by decide⟩).2.1⟩

end Caterina
